import Mathlib

/-!
# Effect execution scenario

A shallow embedding of `src/effects/effects_base/internal/effectexecutionscenario.cpp`.

* Times and rates (`secs_t`, `double`) are rationals. The scenario only copies and
  compares them, except in the quantization of the time window (lines 161-164):
  `formSettings` evaluates those four lines in exact arithmetic, and
  `formSettingsRounded` evaluates them with every double operation rounded, by
  `roundToDouble` for IEEE 754 binary64.
* The objects the scenario mutates (the effect objects, the settings owned by the
  effect manager, the selection controller, the project history, the repeat memory
  and its two notification channels) are the fields of `World`.
* The collaborators whose code lives elsewhere (effects provider, DOM accessor,
  instance factory, interactive settings view) are the function fields of `Collab`;
  every call of the processing dispatcher, of the settings view and of the error
  dialog is recorded in a log field of `World`.
-/

namespace EffectExecutionScenario

abbrev EffectId := String
abbrev TrackId := Int
abbrev ClipId := Int
abbrev secs_t := ℚ
abbrev EffectInstanceId := Nat

/-- Key of one clip: `trackedit::ClipKey`. -/
structure ClipKey where
  trackId : TrackId
  clipId : ClipId
deriving DecidableEq, Repr

/-- Result codes that the scenario produces or tests; every other code is `Other n`. -/
inductive Code where
  | Ok
  | Cancel
  | UnknownError
  | EffectMultipleClipSelectionNotSupported
  | EffectNoAudioSelected
  | Other (n : Nat)
deriving DecidableEq, Repr

/-- Result value `muse::Ret`: a code and a text. -/
structure Ret where
  code : Code
  text : String
deriving DecidableEq, Repr

/-- Conversion `operator bool` of `muse::Ret`: the code is `Ok`. -/
def Ret.success (r : Ret) : Bool := decide (r.code = Code.Ok)

/-- Value of `Ret(true)`, as built by `Ret success = true` and `return true`. -/
def Ret.ok : Ret := { code := Code.Ok, text := "" }

/-- Effect classification, `EffectType` of lib-components. -/
inductive EffectType where
  | EffectTypeNone
  | EffectTypeHidden
  | EffectTypeGenerate
  | EffectTypeProcess
  | EffectTypeAnalyze
  | EffectTypeTool
deriving DecidableEq, Repr

/-- Modelled from the spec: the invocation flag "pre-configured" of `EffectManager`
(the header is not part of the sources); one bit of the flag set. -/
def kConfigured : Nat := 1

/-- Modelled from the spec: the invocation flag "skip-history" of `EffectManager`. -/
def kSkipState : Nat := 2

/-- Modelled from the spec: the invocation flag "do not remember as last" of
`EffectManager`. -/
def kDontRepeatLast : Nat := 4

/-- Constant `UNDEFINED_FREQUENCY` (line 31). -/
def UNDEFINED_FREQUENCY : ℚ := -1

/-- Transient fields of an `Effect` object that the scenario reads and writes. -/
structure Effect where
  mUIFlags : Nat
  /-- Whether `mFactory` points to the wave track factory of the project. -/
  mFactory : Bool
  mProjectRate : ℚ
  mT0 : ℚ
  mT1 : ℚ
  /-- Whether the track list pointer set by `SetTracks` is non-null. -/
  mTracks : Bool
  /-- Count written by `CountWaveTracks`. -/
  mNumTracks : Nat
  mF0 : ℚ
  mF1 : ℚ
  mPresetNames : List String
deriving DecidableEq, Repr

/-- Part `extra` of the settings. -/
structure EffectSettingsExtra where
  duration : ℚ
  durationFormat : String
deriving DecidableEq, Repr

/-- Settings of one effect; `params` stands for the parameters of the effect itself. -/
structure EffectSettings where
  extra : EffectSettingsExtra
  params : Nat
deriving DecidableEq, Repr

/-- State of the selection controller. -/
structure Selection where
  selectedClips : List ClipKey
  selectedTracks : List TrackId
  dataSelectedStartTime : secs_t
  dataSelectedEndTime : secs_t
deriving DecidableEq, Repr

/-- Handle of a wave track found by the DOM accessor. -/
structure WaveTrack where
  handle : Nat
deriving DecidableEq, Repr

/-- Clip found by the DOM accessor, with its two time accessors. -/
structure WaveClip where
  playStartTime : ℚ
  playEndTime : ℚ
deriving DecidableEq, Repr

/-- Processing instance `EffectInstanceEx`. -/
structure Instance where
  handle : Nat
deriving DecidableEq, Repr

/-- One recorded call of `effectsProvider()->performEffect`: the effect, its time
window and the clip selection when the call is made, and the result of the call. -/
structure DispatchCall where
  effectId : EffectId
  t0 : ℚ
  t1 : ℚ
  selectedClips : List ClipKey
  ret : Ret
deriving DecidableEq, Repr

/-- One recorded call of `effectsProvider()->showEffect`: its two arguments and the
result of the call. -/
structure ShowCall where
  type : String
  instanceId : EffectInstanceId
  ret : Ret
deriving DecidableEq, Repr

/-- Everything the scenario can change, with the logs of its outgoing calls. -/
structure World where
  /-- Value of `ProjectRate::Get(project).GetRate()`. -/
  projectRate : ℚ
  /-- Object behind `effectsProvider()->effect(effectId)`; the source uses the pointer
  unchecked, so every id has an object here. -/
  effects : EffectId → Effect
  /-- Object behind `em.GetDefaultSettings(ID)`, `none` for a null pointer. -/
  defaultSettings : EffectId → Option EffectSettings
  /-- Flag behind `em.GetSkipStateFlag()`. -/
  skipStateFlag : Bool
  selection : Selection
  /-- Entries `(longDesc, shortDesc)` pushed with `pushHistoryState`. -/
  history : List (String × String)
  m_lastProcessorId : Option EffectId
  /-- Values sent on the channel `m_lastProcessorIdChanged`. -/
  m_lastProcessorIdChanged : List EffectId
  /-- Number of `notify` calls on `m_lastProcessorIsAvailableChanged`. -/
  m_lastProcessorIsAvailableChanged : Nat
  /-- Private configuration value stored under `DurationKey`. -/
  durationConfig : EffectId → Option ℚ
  /-- Settings written by `SaveUserPreset`. -/
  userPresets : EffectId → Option EffectSettings
  /-- Content of the effect instances register. -/
  registeredInstances : List EffectInstanceId
  dispatchLog : List DispatchCall
  showEffectLog : List ShowCall
  /-- Calls `(title, text)` of `interactive()->error`. -/
  errorLog : List (String × String)

/-- Outcome of the interactive settings view: its result and the settings as the
user left them. -/
structure ShowResult where
  ret : Ret
  settings : EffectSettings

/-- Outcome of one dispatch: the result, and the effect object, the settings and the
skip-state flag as the effect left them. -/
structure DispatchResult where
  ret : Ret
  effect : Effect
  settings : EffectSettings
  skipStateFlag : Bool

/-- Collaborators of the scenario, known only at their interface. -/
structure Collab where
  /-- Getter `effect->GetType()`. -/
  effectType : EffectId → EffectType
  /-- Getter `effect->IsInteractive()`. -/
  isInteractive : EffectId → Bool
  /-- Getter `effect->GetDefaultDuration()`. -/
  defaultDuration : EffectId → ℚ
  /-- Getter `effect->GetSymbol().Internal()`. -/
  symbol : EffectId → String
  /-- Getter `effectsProvider()->meta(effectId).title`. -/
  title : EffectId → String
  /-- Getter `PluginManager::Get().GetName(ID).Translation()`. -/
  pluginName : EffectId → String
  supportsMultipleClipSelection : EffectId → Bool
  selectedClipStartTime : Selection → secs_t
  selectedClipEndTime : Selection → secs_t
  /-- Format `NumericConverterFormats::TimeAndSampleFormat().Internal()`. -/
  timeAndSampleFormat : String
  /-- Format `NumericConverterFormats::DefaultSelectionFormat().Internal()`. -/
  defaultSelectionFormat : String
  /-- Number of wave tracks of the project, counted by `CountWaveTracks`. -/
  countWaveTracks : Nat
  /-- Call `effect->MakeInstance()` followed by the dynamic cast. -/
  makeInstance : EffectId → Effect → Option Instance
  /-- Call `pInstanceEx->Init()`. -/
  initInstance : Instance → Bool
  /-- Handle returned by `regInstance`. -/
  regInstanceId : EffectId → EffectInstanceId
  showEffect : World → String → EffectInstanceId → ShowResult
  performEffect : World → EffectId → Instance → DispatchResult
  findWaveTrack : TrackId → Option WaveTrack
  findWaveClip : WaveTrack → ClipId → Option WaveClip
  /-- Text that `make_ret` attaches to an error code. -/
  errText : Code → String

/-- Function `make_ret` of `effecterrors.h`. -/
def make_ret (c : Collab) (code : Code) : Ret := { code := code, text := c.errText code }

/-- Modelled from the spec: the macro `QUANTIZED_TIME` (its header is not part of the
sources), `quantized = round(time * rate) / rate`. -/
def QUANTIZED_TIME (time rate : ℚ) : ℚ := (round (time * rate) : ℤ) / rate

/-- Modelled from the spec: `hasSelectedClips` of the selection controller, "query
whether any clips are individually selected". -/
def hasSelectedClips (s : Selection) : Bool := !s.selectedClips.isEmpty

/-- Modelled from the spec: `setSelectedClips` of the selection controller, a plain
setter of the selected clips. -/
def setSelectedClips (w : World) (clips : List ClipKey) : World :=
  { w with selection := { w.selection with selectedClips := clips } }

/-- Modelled from the spec: `setSelectedTracks` of the selection controller, a plain
setter of the selected tracks. -/
def setSelectedTracks (w : World) (tracks : List TrackId) : World :=
  { w with selection := { w.selection with selectedTracks := tracks } }

/-- Modelled from the spec: `setDataSelectedStartTime` of the selection controller. -/
def setDataSelectedStartTime (w : World) (t : secs_t) : World :=
  { w with selection := { w.selection with dataSelectedStartTime := t } }

/-- Modelled from the spec: `setDataSelectedEndTime` of the selection controller. -/
def setDataSelectedEndTime (w : World) (t : secs_t) : World :=
  { w with selection := { w.selection with dataSelectedEndTime := t } }

/-- Write access to the effect object of `effectId`. -/
def setEffect (w : World) (effectId : EffectId) (e : Effect) : World :=
  { w with effects := Function.update w.effects effectId e }

/-- Call `effectsProvider()->performEffect(project, effect, instance, settings)`: the
call is logged, and the effect object, the settings and the skip-state flag are left
as the dispatcher returns them. -/
def providerPerformEffect (c : Collab) (w : World) (effectId : EffectId) (inst : Instance) :
    Ret × World :=
  let out := c.performEffect w effectId inst
  (out.ret,
    { w with
      effects := Function.update w.effects effectId out.effect
      defaultSettings := Function.update w.defaultSettings effectId (some out.settings)
      skipStateFlag := out.skipStateFlag
      dispatchLog := w.dispatchLog ++
        [{ effectId := effectId, t0 := (w.effects effectId).mT0, t1 := (w.effects effectId).mT1,
           selectedClips := w.selection.selectedClips, ret := out.ret }] })

/-- Loop of `performEffectOnEachSelectedClip` (lines 331-355) over the clips still to
process, with the running value of `success`. -/
def eachSelectedClipLoop (c : Collab) (effectId : EffectId) (inst : Instance) :
    List ClipKey → Ret → World → Ret × World
  | [], success, w => (success, w)
  | clip :: rest, success, w =>
    let w1 := setSelectedClips w [clip]
    let w2 := setSelectedTracks w1 [clip.trackId]
    match c.findWaveTrack clip.trackId with
    | none => eachSelectedClipLoop c effectId inst rest success w2
    | some waveTrack =>
      match c.findWaveClip waveTrack clip.clipId with
      | none => eachSelectedClipLoop c effectId inst rest success w2
      | some waveClip =>
        let w3 := setEffect w2 effectId
          { w2.effects effectId with mT0 := waveClip.playStartTime, mT1 := waveClip.playEndTime }
        let r := providerPerformEffect c w3 effectId inst
        let success1 := if success.success && !r.1.success then r.1 else success
        eachSelectedClipLoop c effectId inst rest success1 r.2

/-- Function `performEffectOnEachSelectedClip` (lines 314-356). The deferred action
`restoreTrackSelection` runs once, when the scope is left. -/
def performEffectOnEachSelectedClip (c : Collab) (w : World) (effectId : EffectId)
    (inst : Instance) : Ret × World :=
  let clipsToProcess := w.selection.selectedClips
  let _tracksToProcess := w.selection.selectedTracks
  let r := eachSelectedClipLoop c effectId inst clipsToProcess Ret.ok w
  (r.1, setSelectedClips r.2 clipsToProcess)

/-- Values of `EffectTimeParams` (lines 128-134). -/
structure EffectTimeParams where
  projectRate : ℚ := 0
  t0 : ℚ := 0
  t1 : ℚ := 0
  f0 : ℚ := 0
  f1 : ℚ := 0
deriving DecidableEq, Repr

/-- Value read into `t0` in step 1 of `doPerformEffect` (lines 96-104). -/
def selectionT0 (c : Collab) (w : World) : secs_t :=
  if hasSelectedClips w.selection = true then c.selectedClipStartTime w.selection
  else w.selection.dataSelectedStartTime

/-- Value read into `t1` in step 1 of `doPerformEffect` (lines 96-104). -/
def selectionT1 (c : Collab) (w : World) : secs_t :=
  if hasSelectedClips w.selection = true then c.selectedClipEndTime w.selection
  else w.selection.dataSelectedEndTime

/-- Step 1 of `doPerformEffect` (lines 86-109): the two checks of the input, and the
time window `t0`, `t1` with `isSelection` when both pass. -/
def checkInputParams (c : Collab) (w : World) (effectId : EffectId) :
    Except Ret (secs_t × secs_t × Bool) :=
  let numSelectedClips := w.selection.selectedClips.length
  if numSelectedClips > 1 ∧ c.supportsMultipleClipSelection effectId = false then
    Except.error (make_ret c Code.EffectMultipleClipSelectionNotSupported)
  else
    let t0 := selectionT0 c w
    let t1 := selectionT1 c w
    let isSelection : Bool := decide (t1 > t0)
    if isSelection = false ∧ c.effectType effectId ≠ EffectType.EffectTypeGenerate then
      Except.error (make_ret c Code.EffectNoAudioSelected)
    else
      Except.ok (t0, t1, isSelection)

/-- Steps 2.2 to 2.4 of `doPerformEffect` (lines 145-178): the time parameters and the
settings with the duration and its format written. -/
def formSettings (c : Collab) (w : World) (effectId : EffectId) (t0 t1 : secs_t)
    (isSelection : Bool) (settings : EffectSettings) : EffectTimeParams × EffectSettings :=
  let tp : EffectTimeParams := { projectRate := w.projectRate }
  let duration : ℚ :=
    if c.effectType effectId = EffectType.EffectTypeGenerate then
      (w.durationConfig effectId).getD (c.defaultDuration effectId)
    else 0
  let tp := { tp with t0 := t0, t1 := t1 }
  let quantized : ℚ × EffectTimeParams :=
    if tp.t1 > tp.t0 then
      let quantMT0 := QUANTIZED_TIME tp.t0 tp.projectRate
      let quantMT1 := QUANTIZED_TIME tp.t1 tp.projectRate
      let quantizedDuration := quantMT1 - quantMT0
      (quantizedDuration, { tp with t1 := tp.t0 + quantizedDuration })
    else (duration, tp)
  let newFormat := if isSelection = true then c.timeAndSampleFormat else c.defaultSelectionFormat
  (quantized.2,
    { settings with extra := { duration := quantized.1, durationFormat := newFormat } })

/-- Step 3 of `doPerformEffect` (lines 188-207), after `oldFlags` has been read. -/
def setupEffect (c : Collab) (w : World) (effectId : EffectId) (flags : Nat)
    (tp : EffectTimeParams) : World :=
  let e := w.effects effectId
  let e1 : Effect :=
    { e with
      mUIFlags := flags
      mFactory := true
      mProjectRate := tp.projectRate
      mT0 := tp.t0
      mT1 := tp.t1
      mTracks := true
      mNumTracks := c.countWaveTracks
      mF0 := tp.f0
      mF1 := tp.f1 }
  let e2 : Effect :=
    if e1.mF0 ≠ UNDEFINED_FREQUENCY then
      { e1 with mPresetNames := e1.mPresetNames ++ ["control-f0"] }
    else e1
  let e3 : Effect :=
    if e2.mF1 ≠ UNDEFINED_FREQUENCY then
      { e2 with mPresetNames := e2.mPresetNames ++ ["control-f1"] }
    else e2
  setEffect w effectId e3

/-- Step 4 of `doPerformEffect` (lines 213-219): the instance, or `none` when it
cannot be made or initialised. -/
def makeAndInitInstance (c : Collab) (w : World) (effectId : EffectId) : Option Instance :=
  match c.makeInstance effectId (w.effects effectId) with
  | none => none
  | some pInstanceEx => if c.initInstance pInstanceEx = false then none else some pInstanceEx

/-- Step 5 of `doPerformEffect` up to the early return (lines 225-236): the world
after the settings view, or the declined result with the world left behind. -/
def modifySettingsByUser (c : Collab) (w : World) (effectId : EffectId) (flags : Nat) :
    Except (Ret × World) World :=
  if c.isInteractive effectId = true ∧ flags &&& kConfigured = 0 then
    let type := c.symbol effectId
    let instanceId := c.regInstanceId effectId
    let w1 : World := { w with registeredInstances := instanceId :: w.registeredInstances }
    let out := c.showEffect w1 type instanceId
    let w2 : World :=
      { w1 with
        defaultSettings := Function.update w1.defaultSettings effectId (some out.settings)
        showEffectLog := w1.showEffectLog ++
          [{ type := type, instanceId := instanceId, ret := out.ret }] }
    let w3 : World := { w2 with registeredInstances := w2.registeredInstances.erase instanceId }
    if out.ret.success = true then
      Except.ok { w3 with userPresets := Function.update w3.userPresets effectId (some out.settings) }
    else
      Except.error (out.ret, w3)
  else
    Except.ok w

/-- Step 7 of `doPerformEffect` (lines 257-267). -/
def cleanup (w : World) (effectId : EffectId) (oldFlags : Nat) (success : Ret)
    (numSelectedClips : Nat) : World :=
  let w1 := setEffect w effectId
    { w.effects effectId with mTracks := false, mPresetNames := [], mUIFlags := oldFlags }
  let effect := w1.effects effectId
  if success.success = true ∧ numSelectedClips < 2 ∧ effect.mT1 ≥ effect.mT0 then
    setDataSelectedEndTime (setDataSelectedStartTime w1 effect.mT0) effect.mT1
  else w1

/-- Step 8.2 of `doPerformEffect`, inner block (lines 293-300). -/
def rememberLastProcessor (w : World) (effectId : EffectId) : World :=
  if w.m_lastProcessorId ≠ some effectId then
    let firstTime := w.m_lastProcessorId.isNone
    let w1 :=
      { w with
        m_lastProcessorId := some effectId
        m_lastProcessorIdChanged := w.m_lastProcessorIdChanged ++ [effectId] }
    if firstTime = true then
      { w1 with m_lastProcessorIsAvailableChanged := w1.m_lastProcessorIsAvailableChanged + 1 }
    else w1
  else w

/-- Entry of the project history written in step 8.1 (lines 286-288); the
translation of the format string is taken as the identity. -/
def historyEntry (c : Collab) (effectId : EffectId) : String × String :=
  let shortDesc := c.pluginName effectId
  let longDesc := "Applied effect: " ++ shortDesc
  (longDesc, shortDesc)

/-- Step 8 of `doPerformEffect` (lines 281-308). -/
def writeHistory (c : Collab) (w : World) (effectId : EffectId) (flags : Nat) : World :=
  let flags := if w.skipStateFlag = true then flags ||| kSkipState else flags
  let w1 :=
    if flags &&& kSkipState = 0 then { w with history := w.history ++ [historyEntry c effectId] }
    else w
  let w2 :=
    if flags &&& kDontRepeatLast = 0 ∧ c.effectType effectId = EffectType.EffectTypeProcess then
      rememberLastProcessor w1 effectId
    else w1
  if c.effectType effectId = EffectType.EffectTypeGenerate then
    { w2 with
      durationConfig := Function.update w2.durationConfig effectId
        (some ((w2.effects effectId).mT1 - (w2.effects effectId).mT0)) }
  else w2

/-- Steps 2.2 to 3 of `doPerformEffect` (lines 145-207): the settings are formed and
stored, then the effect object is set up with the time parameters. -/
def formAndSetup (c : Collab) (w : World) (effectId : EffectId) (flags : Nat) (t0 t1 : secs_t)
    (isSelection : Bool) (settings : EffectSettings) : World :=
  let built := formSettings c w effectId t0 t1 isSelection settings
  let w2 : World :=
    { w with defaultSettings := Function.update w.defaultSettings effectId (some built.2) }
  setupEffect c w2 effectId flags built.1

/-- Step 6 of `doPerformEffect` (lines 246-248). -/
def dispatch (c : Collab) (w : World) (effectId : EffectId) (numSelectedClips : Nat)
    (pInstanceEx : Instance) : Ret × World :=
  if numSelectedClips > 1 then performEffectOnEachSelectedClip c w effectId pInstanceEx
  else providerPerformEffect c w effectId pInstanceEx

/-- Steps 6 to 8 of `doPerformEffect` (lines 246-311), entered after the skip-state
flag has been reset. -/
def performAndRecord (c : Collab) (w : World) (effectId : EffectId) (flags oldFlags : Nat)
    (numSelectedClips : Nat) (pInstanceEx : Instance) : Ret × World :=
  let dispatched := dispatch c w effectId numSelectedClips pInstanceEx
  let success := dispatched.1
  let w7 := cleanup dispatched.2 effectId oldFlags success numSelectedClips
  if success.success = false then (success, w7)
  else (Ret.ok, writeHistory c w7 effectId flags)

/-- Function `doPerformEffect` (lines 71-312): the result and the world it leaves. -/
def doPerformEffect (c : Collab) (w : World) (effectId : EffectId) (flags : Nat) : Ret × World :=
  let numSelectedClips := w.selection.selectedClips.length
  match checkInputParams c w effectId with
  | Except.error r => (r, w)
  | Except.ok (t0, t1, isSelection) =>
    match w.defaultSettings effectId with
    | none => (make_ret c Code.UnknownError, w)
    | some settings =>
      let oldFlags := (w.effects effectId).mUIFlags
      let w3 := formAndSetup c w effectId flags t0 t1 isSelection settings
      match makeAndInitInstance c w3 effectId with
      | none => (make_ret c Code.UnknownError, w3)
      | some pInstanceEx =>
        match modifySettingsByUser c w3 effectId flags with
        | Except.error declined => declined
        | Except.ok w4 =>
          performAndRecord c { w4 with skipStateFlag := false } effectId flags oldFlags
            numSelectedClips pInstanceEx

/-- Function `makeErrorMsg` (lines 53-58). -/
def makeErrorMsg (c : Collab) (ret : Ret) (effectId : EffectId) : String × String :=
  (c.title effectId, ret.text)

/-- Function `performEffectWithShowError` (lines 60-69). -/
def performEffectWithShowError (c : Collab) (w : World) (effectId : EffectId) (flags : Nat) :
    Ret × World :=
  let r := doPerformEffect c w effectId flags
  if r.1.success = false ∧ r.1.code ≠ Code.Cancel then
    (r.1, { r.2 with errorLog := r.2.errorLog ++ [makeErrorMsg c r.1 effectId] })
  else r

/-- Function `performEffect` (lines 33-37). -/
def performEffect (c : Collab) (w : World) (effectId : EffectId) : Ret × World :=
  performEffectWithShowError c w effectId 0

/-- Function `repeatLastProcessor` (lines 44-51). -/
def repeatLastProcessor (c : Collab) (w : World) : Ret × World :=
  match w.m_lastProcessorId with
  | none => (make_ret c Code.UnknownError, w)
  | some lastProcessorId => performEffectWithShowError c w lastProcessorId kConfigured

/-- The five ways through `doPerformEffect`, each with the facts that select it and the
pair it returns. -/
inductive Outcome (c : Collab) (w : World) (effectId : EffectId) (flags : Nat) :
    Ret × World → Prop where
  | invalid (r : Ret) (h1 : checkInputParams c w effectId = Except.error r) :
      Outcome c w effectId flags (r, w)
  | noSettings (t0 t1 : secs_t) (isSelection : Bool)
      (h1 : checkInputParams c w effectId = Except.ok (t0, t1, isSelection))
      (h2 : w.defaultSettings effectId = none) :
      Outcome c w effectId flags (make_ret c Code.UnknownError, w)
  | noInstance (t0 t1 : secs_t) (isSelection : Bool) (settings : EffectSettings)
      (h1 : checkInputParams c w effectId = Except.ok (t0, t1, isSelection))
      (h2 : w.defaultSettings effectId = some settings)
      (h4 : makeAndInitInstance c (formAndSetup c w effectId flags t0 t1 isSelection settings)
        effectId = none) :
      Outcome c w effectId flags
        (make_ret c Code.UnknownError, formAndSetup c w effectId flags t0 t1 isSelection settings)
  | declined (t0 t1 : secs_t) (isSelection : Bool) (settings : EffectSettings)
      (pInstanceEx : Instance) (rw : Ret × World)
      (h1 : checkInputParams c w effectId = Except.ok (t0, t1, isSelection))
      (h2 : w.defaultSettings effectId = some settings)
      (h4 : makeAndInitInstance c (formAndSetup c w effectId flags t0 t1 isSelection settings)
        effectId = some pInstanceEx)
      (h5 : modifySettingsByUser c (formAndSetup c w effectId flags t0 t1 isSelection settings)
        effectId flags = Except.error rw) :
      Outcome c w effectId flags rw
  | dispatched (t0 t1 : secs_t) (isSelection : Bool) (settings : EffectSettings)
      (pInstanceEx : Instance) (w4 : World)
      (h1 : checkInputParams c w effectId = Except.ok (t0, t1, isSelection))
      (h2 : w.defaultSettings effectId = some settings)
      (h4 : makeAndInitInstance c (formAndSetup c w effectId flags t0 t1 isSelection settings)
        effectId = some pInstanceEx)
      (h5 : modifySettingsByUser c (formAndSetup c w effectId flags t0 t1 isSelection settings)
        effectId flags = Except.ok w4) :
      Outcome c w effectId flags
        (performAndRecord c { w4 with skipStateFlag := false } effectId flags
          (w.effects effectId).mUIFlags w.selection.selectedClips.length pInstanceEx)

/-- The part of the world that only step 8 and the error dialog write: history, error
dialog log, repeat memory with its notifications, stored durations and project rate. -/
structure Ledger where
  history : List (String × String)
  errorLog : List (String × String)
  m_lastProcessorId : Option EffectId
  m_lastProcessorIdChanged : List EffectId
  m_lastProcessorIsAvailableChanged : Nat
  durationConfig : EffectId → Option ℚ
  projectRate : ℚ

/-- Ledger of a world. -/
def ledger (w : World) : Ledger :=
  { history := w.history
    errorLog := w.errorLog
    m_lastProcessorId := w.m_lastProcessorId
    m_lastProcessorIdChanged := w.m_lastProcessorIdChanged
    m_lastProcessorIsAvailableChanged := w.m_lastProcessorIsAvailableChanged
    durationConfig := w.durationConfig
    projectRate := w.projectRate }

/-- Both lookups of the loop body (lines 336-344) for one clip key. -/
def lookupClip (c : Collab) (clip : ClipKey) : Option WaveClip :=
  match c.findWaveTrack clip.trackId with
  | none => none
  | some waveTrack => c.findWaveClip waveTrack clip.clipId

/-- Result of the first failing call of a list of dispatch calls, `orElse` when no call
of the list fails. -/
def firstFailureOr (orElse : Ret) (calls : List DispatchCall) : Ret :=
  match calls.find? (fun d => !d.ret.success) with
  | some d => d.ret
  | none => orElse

/-! ## Concrete collaborators and worlds -/

/-- Effect object as it is before any invocation. -/
def idleEffect : Effect :=
  { mUIFlags := 0, mFactory := false, mProjectRate := 0, mT0 := 0, mT1 := 0, mTracks := false,
    mNumTracks := 0, mF0 := 0, mF1 := 0, mPresetNames := [] }

/-- Settings as they are before any invocation. -/
def idleSettings : EffectSettings :=
  { extra := { duration := 0, durationFormat := "" }, params := 0 }

/-- Collaborators of a small project: `tone` is a generator, `reverb` is interactive,
`amplify` works on several clips; the settings view answers with `shown`; a dispatch
fails with code `Other 7` on a window starting at 40 and leaves everything as it is;
track 2 holds no clip 20. -/
def sampleCollab (shown : Ret) : Collab :=
  { effectType := fun i =>
      if i = "tone" then EffectType.EffectTypeGenerate else EffectType.EffectTypeProcess
    isInteractive := fun i => decide (i = "reverb")
    defaultDuration := fun _ => 30
    symbol := fun i => i
    title := fun i => i
    pluginName := fun i => i
    supportsMultipleClipSelection := fun i => decide (i = "amplify")
    selectedClipStartTime := fun s =>
      match s.selectedClips with
      | [k] => (k.clipId : ℚ)
      | _ => -1
    selectedClipEndTime := fun s =>
      match s.selectedClips with
      | [k] => (k.clipId : ℚ) + 5
      | _ => -1
    timeAndSampleFormat := "hh:mm:ss + samples"
    defaultSelectionFormat := "seconds"
    countWaveTracks := 3
    makeInstance := fun _ _ => some { handle := 0 }
    initInstance := fun _ => true
    regInstanceId := fun _ => 1
    showEffect := fun w t _ => { ret := shown, settings := (w.defaultSettings t).getD idleSettings }
    performEffect := fun w i _ =>
      { ret := if (w.effects i).mT0 = 40 then { code := Code.Other 7, text := "failed" } else Ret.ok
        effect := w.effects i
        settings := (w.defaultSettings i).getD idleSettings
        skipStateFlag := w.skipStateFlag }
    findWaveTrack := fun t => if t = 9 then none else some { handle := t.toNat }
    findWaveClip := fun t k =>
      if t.handle = 2 ∧ k = 20 then none
      else some { playStartTime := (k : ℚ), playEndTime := (k : ℚ) + 5 }
    errText := fun _ => "error" }

/-- World of a small project at rate 44100 with the given selection. -/
def sampleWorld (clips : List ClipKey) (tracks : List TrackId) (t0 t1 : secs_t) : World :=
  { projectRate := 44100
    effects := fun _ => idleEffect
    defaultSettings := fun _ => some idleSettings
    skipStateFlag := false
    selection :=
      { selectedClips := clips, selectedTracks := tracks, dataSelectedStartTime := t0,
        dataSelectedEndTime := t1 }
    history := []
    m_lastProcessorId := none
    m_lastProcessorIdChanged := []
    m_lastProcessorIsAvailableChanged := 0
    durationConfig := fun _ => none
    userPresets := fun _ => none
    registeredInstances := []
    dispatchLog := []
    showEffectLog := []
    errorLog := [] }

/-- Collaborators as in `sampleCollab`, but no processing instance can be made. -/
def noInstanceCollab : Collab :=
  { sampleCollab Ret.ok with makeInstance := fun _ _ => none }

/-- Collaborators as in `sampleCollab`, but a clip selection always spans the window
from 0 s to 10 s, also when several clips are selected. -/
def batchCollab : Collab :=
  { sampleCollab Ret.ok with
    selectedClipStartTime := fun _ => 0
    selectedClipEndTime := fun _ => 10 }

/-! ## Double arithmetic -/

/-- Power of two with an integer exponent, as a rational. -/
def pow2 (e : ℤ) : ℚ :=
  if 0 ≤ e then ((2 ^ e.toNat : ℕ) : ℚ) else 1 / ((2 ^ (-e).toNat : ℕ) : ℚ)

/-- Floor of the binary logarithm of `n` for `1 ≤ n ≤ 2 ^ fuel` (0 for `n = 0`). -/
def log2Fuel : ℕ → ℕ → ℕ
  | 0, _ => 0
  | fuel + 1, n => if n < 2 then 0 else log2Fuel fuel (n / 2) + 1

/-- Floor of the binary logarithm of a positive rational: the difference of the
logarithms of numerator and denominator, lowered by one when that power of two is
above `x`. -/
def ilog2 (x : ℚ) : ℤ :=
  let k : ℤ := (log2Fuel x.num.natAbs x.num.natAbs : ℤ) - (log2Fuel x.den x.den : ℤ)
  if pow2 k ≤ x then k else k - 1

/-- Nearest integer of a rational, a tie going to the even neighbour. -/
def roundHalfEven (s : ℚ) : ℤ :=
  let f := ⌊s⌋
  let r := s - f
  if r < 1 / 2 then f
  else if 1 / 2 < r then f + 1
  else if f % 2 = 0 then f else f + 1

/-- Rounding of a real result to an IEEE 754 binary64 value, to nearest with ties to
even: the result is a multiple of `2 ^ e` with a significand of at most 53 bits, where
`e` is 52 below the binary exponent of `x` and at least -1074 (subnormal range). Results
above the largest finite double, where the machine gives an infinity, are not
modelled. -/
def roundToDouble (x : ℚ) : ℚ :=
  if x = 0 then 0
  else
    let e := max (ilog2 |x| - 52) (-1074)
    (roundHalfEven (x / pow2 e) : ℚ) * pow2 e

/-- Statement that the operation with exact result `x` is rounded by `fl` with a relative
error of at most `u`. -/
abbrev RoundsWithin (fl : ℚ → ℚ) (u x : ℚ) : Prop := |fl x - x| ≤ u * |x|

/-- Sample index computed inside `QUANTIZED_TIME`: the product `time * rate` is a double
operation, rounded by `fl`, and the rounding of a double to an integer is exact. -/
def quantizedSample (fl : ℚ → ℚ) (time rate : ℚ) : ℤ := round (fl (time * rate))

/-- Modelled from the spec: the macro `QUANTIZED_TIME` in double arithmetic,
`quantized = round(time * rate) / rate` with the product and the quotient rounded by
`fl`. -/
def QUANTIZED_TIME_rounded (fl : ℚ → ℚ) (time rate : ℚ) : ℚ :=
  fl ((quantizedSample fl time rate : ℚ) / rate)

/-- Steps 2.2 to 2.4 of `doPerformEffect` (lines 145-178) in double arithmetic: as
`formSettings`, with the subtraction of line 163 and the addition of line 164 rounded by
`fl`, like the operations inside `QUANTIZED_TIME`. -/
def formSettingsRounded (fl : ℚ → ℚ) (c : Collab) (w : World) (effectId : EffectId)
    (t0 t1 : secs_t) (isSelection : Bool) (settings : EffectSettings) :
    EffectTimeParams × EffectSettings :=
  let tp : EffectTimeParams := { projectRate := w.projectRate }
  let duration : ℚ :=
    if c.effectType effectId = EffectType.EffectTypeGenerate then
      (w.durationConfig effectId).getD (c.defaultDuration effectId)
    else 0
  let tp := { tp with t0 := t0, t1 := t1 }
  let quantized : ℚ × EffectTimeParams :=
    if tp.t1 > tp.t0 then
      let quantMT0 := QUANTIZED_TIME_rounded fl tp.t0 tp.projectRate
      let quantMT1 := QUANTIZED_TIME_rounded fl tp.t1 tp.projectRate
      let quantizedDuration := fl (quantMT1 - quantMT0)
      (quantizedDuration, { tp with t1 := fl (tp.t0 + quantizedDuration) })
    else (duration, tp)
  let newFormat := if isSelection = true then c.timeAndSampleFormat else c.defaultSelectionFormat
  (quantized.2,
    { settings with extra := { duration := quantized.1, durationFormat := newFormat } })

/-- World of a small project at the given rate with the given data selection. -/
def rateWorld (rate t0 t1 : ℚ) : World :=
  { sampleWorld [] [] t0 t1 with projectRate := rate }

/-- Double nearest to 2/44100 s, the time of sample 2 at 44100 Hz. -/
def sample2 : ℚ := roundToDouble (2 / 44100)

/-- Double nearest to 5/44100 s, the time of sample 5 at 44100 Hz. -/
def sample5 : ℚ := roundToDouble (5 / 44100)

/-- World at 44100 Hz with the data selection from `sample2` to `sample5`. -/
def samplesWorld : World := rateWorld 44100 sample2 sample5

/-- World at the rate `2 ^ 30` Hz with the data selection from `2 ^ -29` s to
`2 ^ 24 + 2 ^ -28` s, the times of the samples 2 and `2 ^ 54 + 4`. -/
def alignedWorld : World := rateWorld (2 ^ 30) (1 / 2 ^ 29) (2 ^ 24 + 1 / 2 ^ 28)

/-- Double nearest to 244275/44100 s, the time of sample 244275 at 44100 Hz. -/
def sampleA : ℚ := roundToDouble (244275 / 44100)

/-- Double nearest to 1035054/44100 s, the time of sample 1035054 at 44100 Hz. -/
def sampleB : ℚ := roundToDouble (1035054 / 44100)

/-! ## Properties -/

/-- Claim C2: for an effect that does not declare multi-clip support and a selection of
two or more clips, `doPerformEffect` returns `EffectMultipleClipSelectionNotSupported`,
the dispatcher is not called, and indeed nothing at all is changed. -/
theorem doPerformEffect_multiClip_unsupported (c : Collab) (w : World) (effectId : EffectId)
    (flags : Nat) (hSupport : c.supportsMultipleClipSelection effectId = false)
    (hClips : 2 ≤ w.selection.selectedClips.length) :
    (doPerformEffect c w effectId flags).1.code = Code.EffectMultipleClipSelectionNotSupported ∧
    (doPerformEffect c w effectId flags).2.dispatchLog = w.dispatchLog ∧
    (doPerformEffect c w effectId flags).2 = w := by
  have h1 : checkInputParams c w effectId =
      Except.error (make_ret c Code.EffectMultipleClipSelectionNotSupported) := by
    unfold checkInputParams
    simp only
    rw [if_pos ⟨hClips, hSupport⟩]
  simp [doPerformEffect, h1, make_ret]

/-- Witness of C2: two clips selected and `reverb`, which does not support that. -/
theorem doPerformEffect_multiClip_unsupported_witness :
    ((sampleCollab Ret.ok).supportsMultipleClipSelection "reverb" = false ∧
      2 ≤ (sampleWorld [⟨1, 10⟩, ⟨2, 20⟩] [1, 2] 0 0).selection.selectedClips.length) ∧
    (doPerformEffect (sampleCollab Ret.ok) (sampleWorld [⟨1, 10⟩, ⟨2, 20⟩] [1, 2] 0 0)
      "reverb" 0).1.code = Code.EffectMultipleClipSelectionNotSupported ∧
    (doPerformEffect (sampleCollab Ret.ok) (sampleWorld [⟨1, 10⟩, ⟨2, 20⟩] [1, 2] 0 0)
      "reverb" 0).2.dispatchLog = (sampleWorld [⟨1, 10⟩, ⟨2, 20⟩] [1, 2] 0 0).dispatchLog ∧
    (doPerformEffect (sampleCollab Ret.ok) (sampleWorld [⟨1, 10⟩, ⟨2, 20⟩] [1, 2] 0 0)
      "reverb" 0).2 = sampleWorld [⟨1, 10⟩, ⟨2, 20⟩] [1, 2] 0 0 :=
  ⟨⟨by decide, by decide⟩,
    doPerformEffect_multiClip_unsupported (sampleCollab Ret.ok)
      (sampleWorld [⟨1, 10⟩, ⟨2, 20⟩] [1, 2] 0 0) "reverb" 0 (by decide) (by decide)⟩

/-- Claim C1, counterexample: with two clips selected, a window with `t1 ≤ t0` and the
processing effect `reverb`, the result is not `EffectNoAudioSelected`. -/
theorem doPerformEffect_noAudioSelected_counterexample :
    selectionT1 (sampleCollab Ret.ok) (sampleWorld [⟨1, 10⟩, ⟨2, 20⟩] [1, 2] 0 0) ≤
      selectionT0 (sampleCollab Ret.ok) (sampleWorld [⟨1, 10⟩, ⟨2, 20⟩] [1, 2] 0 0) ∧
    (sampleCollab Ret.ok).effectType "reverb" ≠ EffectType.EffectTypeGenerate ∧
    (doPerformEffect (sampleCollab Ret.ok) (sampleWorld [⟨1, 10⟩, ⟨2, 20⟩] [1, 2] 0 0)
      "reverb" 0).1.code ≠ Code.EffectNoAudioSelected := by
  refine ⟨by decide, by decide, ?_⟩
  decide

/-- Claim C1, amended: when the time window read in step 1 has `t1 ≤ t0` and the effect
is not a generator, `doPerformEffect` changes nothing (effect objects, settings,
selection, history, repeat memory and dispatch log are as before) and returns
`EffectNoAudioSelected`, unless two or more clips are selected and the effect does not
support that, in which case it returns `EffectMultipleClipSelectionNotSupported`. -/
theorem doPerformEffect_noAudioSelected (c : Collab) (w : World) (effectId : EffectId)
    (flags : Nat) (hWindow : selectionT1 c w ≤ selectionT0 c w)
    (hType : c.effectType effectId ≠ EffectType.EffectTypeGenerate) :
    (doPerformEffect c w effectId flags).1.code =
      (if 2 ≤ w.selection.selectedClips.length ∧
          c.supportsMultipleClipSelection effectId = false then
        Code.EffectMultipleClipSelectionNotSupported
      else Code.EffectNoAudioSelected) ∧
    (doPerformEffect c w effectId flags).2 = w := by
  by_cases hM : 2 ≤ w.selection.selectedClips.length ∧
      c.supportsMultipleClipSelection effectId = false
  · have h1 : checkInputParams c w effectId =
        Except.error (make_ret c Code.EffectMultipleClipSelectionNotSupported) := by
      have hM1 : w.selection.selectedClips.length > 1 ∧
          c.supportsMultipleClipSelection effectId = false := hM
      unfold checkInputParams
      simp only
      rw [if_pos hM1]
    simp [doPerformEffect, h1, make_ret, hM]
  · have h1 : checkInputParams c w effectId =
        Except.error (make_ret c Code.EffectNoAudioSelected) := by
      have hM1 : ¬ (w.selection.selectedClips.length > 1 ∧
          c.supportsMultipleClipSelection effectId = false) := hM
      unfold checkInputParams
      simp only
      rw [if_neg hM1, if_pos]
      exact ⟨by simpa using hWindow, hType⟩
    simp [doPerformEffect, h1, make_ret, hM]

/-- Witness of C1 amended: no clip selected, an empty data selection and `reverb`. -/
theorem doPerformEffect_noAudioSelected_witness :
    (selectionT1 (sampleCollab Ret.ok) (sampleWorld [] [] 3 3) ≤
        selectionT0 (sampleCollab Ret.ok) (sampleWorld [] [] 3 3) ∧
      (sampleCollab Ret.ok).effectType "reverb" ≠ EffectType.EffectTypeGenerate) ∧
    (doPerformEffect (sampleCollab Ret.ok) (sampleWorld [] [] 3 3) "reverb" 0).1.code =
      (if 2 ≤ (sampleWorld [] [] 3 3).selection.selectedClips.length ∧
          (sampleCollab Ret.ok).supportsMultipleClipSelection "reverb" = false then
        Code.EffectMultipleClipSelectionNotSupported
      else Code.EffectNoAudioSelected) ∧
    (doPerformEffect (sampleCollab Ret.ok) (sampleWorld [] [] 3 3) "reverb" 0).2 =
      sampleWorld [] [] 3 3 :=
  ⟨⟨by decide, by decide⟩,
    doPerformEffect_noAudioSelected (sampleCollab Ret.ok) (sampleWorld [] [] 3 3) "reverb" 0
      (by decide) (by decide)⟩

/-! ### Frame lemmas of the steps -/

theorem make_ret_success (c : Collab) (code : Code) (h : code ≠ Code.Ok) :
    (make_ret c code).success = false := by
  simp [make_ret, Ret.success, h]

theorem checkInputParams_error_success (c : Collab) (w : World) (effectId : EffectId) (r : Ret)
    (h : checkInputParams c w effectId = Except.error r) : r.success = false := by
  unfold checkInputParams at h
  simp only at h
  split at h
  · cases h
    exact make_ret_success c _ (by decide)
  · split at h
    · cases h
      exact make_ret_success c _ (by decide)
    · cases h

theorem modifySettingsByUser_error_success (c : Collab) (w : World) (effectId : EffectId)
    (flags : Nat) (rw : Ret × World)
    (h : modifySettingsByUser c w effectId flags = Except.error rw) : rw.1.success = false := by
  unfold modifySettingsByUser at h
  simp only at h
  split at h
  · split at h
    · cases h
    · cases h
      simpa using ‹¬ _ = true›
  · cases h

/-- Every run of `doPerformEffect` goes one of the five ways of `Outcome`. -/
theorem doPerformEffect_outcome (c : Collab) (w : World) (effectId : EffectId) (flags : Nat) :
    Outcome c w effectId flags (doPerformEffect c w effectId flags) := by
  unfold doPerformEffect
  cases h1 : checkInputParams c w effectId with
  | error r => exact Outcome.invalid r h1
  | ok t =>
    obtain ⟨t0, t1, isSelection⟩ := t
    cases h2 : w.defaultSettings effectId with
    | none => exact Outcome.noSettings t0 t1 isSelection h1 h2
    | some settings =>
      cases h4 : makeAndInitInstance c
          (formAndSetup c w effectId flags t0 t1 isSelection settings) effectId with
      | none =>
        simp only [h4]
        exact Outcome.noInstance t0 t1 isSelection settings h1 h2 h4
      | some pInstanceEx =>
        cases h5 : modifySettingsByUser c
            (formAndSetup c w effectId flags t0 t1 isSelection settings) effectId flags with
        | error rw =>
          simp only [h4, h5]
          exact Outcome.declined t0 t1 isSelection settings pInstanceEx rw h1 h2 h4 h5
        | ok w4 =>
          simp only [h4, h5]
          exact Outcome.dispatched t0 t1 isSelection settings pInstanceEx w4 h1 h2 h4 h5

theorem performAndRecord_of_success (c : Collab) (w : World) (effectId : EffectId)
    (flags oldFlags n : Nat) (inst : Instance)
    (h : (dispatch c w effectId n inst).1.success = true) :
    performAndRecord c w effectId flags oldFlags n inst =
      (Ret.ok, writeHistory c
        (cleanup (dispatch c w effectId n inst).2 effectId oldFlags
          (dispatch c w effectId n inst).1 n) effectId flags) := by
  unfold performAndRecord
  simp [h]

theorem performAndRecord_of_failure (c : Collab) (w : World) (effectId : EffectId)
    (flags oldFlags n : Nat) (inst : Instance)
    (h : (dispatch c w effectId n inst).1.success = false) :
    performAndRecord c w effectId flags oldFlags n inst =
      ((dispatch c w effectId n inst).1,
        cleanup (dispatch c w effectId n inst).2 effectId oldFlags
          (dispatch c w effectId n inst).1 n) := by
  unfold performAndRecord
  simp [h]

theorem performAndRecord_success_iff (c : Collab) (w : World) (effectId : EffectId)
    (flags oldFlags n : Nat) (inst : Instance) :
    (performAndRecord c w effectId flags oldFlags n inst).1.success =
      (dispatch c w effectId n inst).1.success := by
  cases h : (dispatch c w effectId n inst).1.success
  · rw [performAndRecord_of_failure _ _ _ _ _ _ _ h]
    exact h
  · rw [performAndRecord_of_success _ _ _ _ _ _ _ h]
    rfl

theorem rememberLastProcessor_selection (w : World) (effectId : EffectId) :
    (rememberLastProcessor w effectId).selection = w.selection := by
  unfold rememberLastProcessor
  simp only
  split_ifs <;> rfl

theorem rememberLastProcessor_effects (w : World) (effectId : EffectId) :
    (rememberLastProcessor w effectId).effects = w.effects := by
  unfold rememberLastProcessor
  simp only
  split_ifs <;> rfl

theorem rememberLastProcessor_history (w : World) (effectId : EffectId) :
    (rememberLastProcessor w effectId).history = w.history := by
  unfold rememberLastProcessor
  simp only
  split_ifs <;> rfl

theorem rememberLastProcessor_skipStateFlag (w : World) (effectId : EffectId) :
    (rememberLastProcessor w effectId).skipStateFlag = w.skipStateFlag := by
  unfold rememberLastProcessor
  simp only
  split_ifs <;> rfl

theorem writeHistory_selection (c : Collab) (w : World) (effectId : EffectId) (flags : Nat) :
    (writeHistory c w effectId flags).selection = w.selection := by
  unfold writeHistory
  simp only
  split_ifs <;> simp [rememberLastProcessor_selection]

theorem writeHistory_effects (c : Collab) (w : World) (effectId : EffectId) (flags : Nat) :
    (writeHistory c w effectId flags).effects = w.effects := by
  unfold writeHistory
  simp only
  split_ifs <;> simp [rememberLastProcessor_effects]

theorem writeHistory_skipStateFlag (c : Collab) (w : World) (effectId : EffectId)
    (flags : Nat) : (writeHistory c w effectId flags).skipStateFlag = w.skipStateFlag := by
  unfold writeHistory
  simp only
  split_ifs <;> simp [rememberLastProcessor_skipStateFlag]

theorem cleanup_effects (w : World) (effectId : EffectId) (oldFlags : Nat) (success : Ret)
    (n : Nat) :
    (cleanup w effectId oldFlags success n).effects effectId =
      { w.effects effectId with mTracks := false, mPresetNames := [], mUIFlags := oldFlags } := by
  unfold cleanup
  simp only
  split_ifs <;>
    simp [setEffect, setDataSelectedEndTime, setDataSelectedStartTime]

theorem cleanup_selection_of_success (w : World) (effectId : EffectId) (oldFlags : Nat)
    (success : Ret) (n : Nat) (hs : success.success = true) (hn : n < 2)
    (hw : (w.effects effectId).mT0 ≤ (w.effects effectId).mT1) :
    (cleanup w effectId oldFlags success n).selection =
      { w.selection with
        dataSelectedStartTime := (w.effects effectId).mT0
        dataSelectedEndTime := (w.effects effectId).mT1 } := by
  unfold cleanup
  simp only
  rw [if_pos]
  · simp [setEffect, setDataSelectedEndTime, setDataSelectedStartTime]
  · exact ⟨hs, hn, by simpa [setEffect] using hw⟩

/-- Claim C3: after a successful invocation with fewer than two selected clips that
leaves the effect window with `mT0 ≤ mT1`, the data selection of the project is exactly
the final `mT0` and `mT1` of the effect. The effect type plays no part, so this holds in
particular for every effect that is not a generator. -/
theorem doPerformEffect_selection_follows_effect (c : Collab) (w : World)
    (effectId : EffectId) (flags : Nat)
    (hOk : (doPerformEffect c w effectId flags).1.success = true)
    (hClips : w.selection.selectedClips.length < 2)
    (hWindow : ((doPerformEffect c w effectId flags).2.effects effectId).mT0 ≤
      ((doPerformEffect c w effectId flags).2.effects effectId).mT1) :
    (doPerformEffect c w effectId flags).2.selection.dataSelectedStartTime =
      ((doPerformEffect c w effectId flags).2.effects effectId).mT0 ∧
    (doPerformEffect c w effectId flags).2.selection.dataSelectedEndTime =
      ((doPerformEffect c w effectId flags).2.effects effectId).mT1 := by
  have ho := doPerformEffect_outcome c w effectId flags
  generalize doPerformEffect c w effectId flags = res at ho hOk hWindow ⊢
  cases ho with
  | invalid r h1 =>
    rw [checkInputParams_error_success c w effectId r h1] at hOk
    cases hOk
  | noSettings t0 t1 isSelection h1 h2 =>
    rw [make_ret_success c _ (by decide)] at hOk
    cases hOk
  | noInstance t0 t1 isSelection settings h1 h2 h4 =>
    rw [make_ret_success c _ (by decide)] at hOk
    cases hOk
  | declined t0 t1 isSelection settings pInstanceEx rw h1 h2 h4 h5 =>
    rw [modifySettingsByUser_error_success _ _ _ _ _ h5] at hOk
    cases hOk
  | dispatched t0 t1 isSelection settings pInstanceEx w4 h1 h2 h4 h5 =>
    rw [performAndRecord_success_iff] at hOk
    rw [performAndRecord_of_success _ _ _ _ _ _ _ hOk] at hWindow ⊢
    simp only [writeHistory_selection, writeHistory_effects, cleanup_effects] at hWindow ⊢
    rw [cleanup_selection_of_success _ _ _ _ _ hOk hClips hWindow]
    exact ⟨rfl, rfl⟩

/-- Witness of C3: `amplify` applied to the data selection from 2 s to 5 s. -/
theorem doPerformEffect_selection_follows_effect_witness :
    ((doPerformEffect (sampleCollab Ret.ok) (sampleWorld [] [] 2 5) "amplify" 0).1.success = true ∧
      (sampleWorld [] [] 2 5).selection.selectedClips.length < 2 ∧
      ((doPerformEffect (sampleCollab Ret.ok) (sampleWorld [] [] 2 5) "amplify" 0).2.effects
          "amplify").mT0 ≤
        ((doPerformEffect (sampleCollab Ret.ok) (sampleWorld [] [] 2 5) "amplify" 0).2.effects
          "amplify").mT1) ∧
    (doPerformEffect (sampleCollab Ret.ok) (sampleWorld [] [] 2 5) "amplify"
        0).2.selection.dataSelectedStartTime =
      ((doPerformEffect (sampleCollab Ret.ok) (sampleWorld [] [] 2 5) "amplify" 0).2.effects
        "amplify").mT0 ∧
    (doPerformEffect (sampleCollab Ret.ok) (sampleWorld [] [] 2 5) "amplify"
        0).2.selection.dataSelectedEndTime =
      ((doPerformEffect (sampleCollab Ret.ok) (sampleWorld [] [] 2 5) "amplify" 0).2.effects
        "amplify").mT1 :=
  ⟨⟨by decide, by decide, by decide!⟩,
    doPerformEffect_selection_follows_effect (sampleCollab Ret.ok) (sampleWorld [] [] 2 5)
      "amplify" 0 (by decide) (by decide) (by decide!)⟩

/-! ### What the steps before step 8 leave alone -/

theorem setupEffect_frame (c : Collab) (w : World) (effectId : EffectId) (flags : Nat)
    (tp : EffectTimeParams) :
    ledger (setupEffect c w effectId flags tp) = ledger w ∧
    (setupEffect c w effectId flags tp).showEffectLog = w.showEffectLog ∧
    (setupEffect c w effectId flags tp).dispatchLog = w.dispatchLog ∧
    (setupEffect c w effectId flags tp).selection = w.selection := by
  unfold setupEffect
  simp [setEffect, ledger]

theorem formAndSetup_frame (c : Collab) (w : World) (effectId : EffectId) (flags : Nat)
    (t0 t1 : secs_t) (isSelection : Bool) (settings : EffectSettings) :
    ledger (formAndSetup c w effectId flags t0 t1 isSelection settings) = ledger w ∧
    (formAndSetup c w effectId flags t0 t1 isSelection settings).showEffectLog =
      w.showEffectLog ∧
    (formAndSetup c w effectId flags t0 t1 isSelection settings).dispatchLog = w.dispatchLog ∧
    (formAndSetup c w effectId flags t0 t1 isSelection settings).selection = w.selection := by
  unfold formAndSetup
  simp only
  exact setupEffect_frame c _ effectId flags _

theorem modifySettingsByUser_error_frame (c : Collab) (w : World) (effectId : EffectId)
    (flags : Nat) (rw : Ret × World)
    (h : modifySettingsByUser c w effectId flags = Except.error rw) :
    ledger rw.2 = ledger w ∧ rw.2.dispatchLog = w.dispatchLog ∧ rw.2.selection = w.selection ∧
    rw.2.showEffectLog = w.showEffectLog ++
      [{ type := c.symbol effectId, instanceId := c.regInstanceId effectId, ret := rw.1 }] := by
  unfold modifySettingsByUser at h
  simp only at h
  split at h
  · split at h
    · cases h
    · cases h
      simp [ledger]
  · cases h

theorem modifySettingsByUser_ok_frame (c : Collab) (w w4 : World) (effectId : EffectId)
    (flags : Nat) (h : modifySettingsByUser c w effectId flags = Except.ok w4) :
    ledger w4 = ledger w ∧ w4.dispatchLog = w.dispatchLog ∧ w4.selection = w.selection ∧
    (w4.showEffectLog = w.showEffectLog ∨
      ∃ r : Ret, r.success = true ∧ w4.showEffectLog = w.showEffectLog ++
        [{ type := c.symbol effectId, instanceId := c.regInstanceId effectId, ret := r }]) := by
  unfold modifySettingsByUser at h
  simp only at h
  split at h
  · split at h
    · rename_i hs
      cases h
      refine ⟨by simp [ledger], rfl, rfl, Or.inr ⟨_, hs, rfl⟩⟩
    · cases h
  · cases h
    exact ⟨rfl, rfl, rfl, Or.inl rfl⟩

theorem providerPerformEffect_frame (c : Collab) (w : World) (effectId : EffectId)
    (inst : Instance) :
    ledger (providerPerformEffect c w effectId inst).2 = ledger w ∧
    (providerPerformEffect c w effectId inst).2.showEffectLog = w.showEffectLog ∧
    (providerPerformEffect c w effectId inst).2.selection = w.selection := by
  simp [providerPerformEffect, ledger]

theorem eachSelectedClipLoop_frame (c : Collab) (effectId : EffectId) (inst : Instance)
    (clips : List ClipKey) :
    ∀ (success : Ret) (w : World),
      ledger (eachSelectedClipLoop c effectId inst clips success w).2 = ledger w ∧
      (eachSelectedClipLoop c effectId inst clips success w).2.showEffectLog = w.showEffectLog ∧
      (eachSelectedClipLoop c effectId inst clips success w).2.selection.dataSelectedStartTime =
        w.selection.dataSelectedStartTime ∧
      (eachSelectedClipLoop c effectId inst clips success w).2.selection.dataSelectedEndTime =
        w.selection.dataSelectedEndTime := by
  induction clips with
  | nil =>
    intro success w
    simp [eachSelectedClipLoop]
  | cons clip rest ih =>
    intro success w
    unfold eachSelectedClipLoop
    simp only
    split
    · obtain ⟨h1, h2, h3, h4⟩ := ih success (setSelectedTracks (setSelectedClips w [clip]) [clip.trackId])
      exact ⟨h1, h2, h3, h4⟩
    · split
      · obtain ⟨h1, h2, h3, h4⟩ :=
          ih success (setSelectedTracks (setSelectedClips w [clip]) [clip.trackId])
        exact ⟨h1, h2, h3, h4⟩
      · rename_i waveTrack _ waveClip _
        obtain ⟨h1, h2, h3, h4⟩ := ih
          (if (success.success && !(providerPerformEffect c
              (setEffect (setSelectedTracks (setSelectedClips w [clip]) [clip.trackId]) effectId
                { (setSelectedTracks (setSelectedClips w [clip]) [clip.trackId]).effects effectId with
                  mT0 := waveClip.playStartTime, mT1 := waveClip.playEndTime })
              effectId inst).1.success) = true then
            (providerPerformEffect c
              (setEffect (setSelectedTracks (setSelectedClips w [clip]) [clip.trackId]) effectId
                { (setSelectedTracks (setSelectedClips w [clip]) [clip.trackId]).effects effectId with
                  mT0 := waveClip.playStartTime, mT1 := waveClip.playEndTime })
              effectId inst).1
          else success)
          (providerPerformEffect c
              (setEffect (setSelectedTracks (setSelectedClips w [clip]) [clip.trackId]) effectId
                { (setSelectedTracks (setSelectedClips w [clip]) [clip.trackId]).effects effectId with
                  mT0 := waveClip.playStartTime, mT1 := waveClip.playEndTime })
              effectId inst).2
        obtain ⟨g1, g2, g3⟩ := providerPerformEffect_frame c
          (setEffect (setSelectedTracks (setSelectedClips w [clip]) [clip.trackId]) effectId
            { (setSelectedTracks (setSelectedClips w [clip]) [clip.trackId]).effects effectId with
              mT0 := waveClip.playStartTime, mT1 := waveClip.playEndTime })
          effectId inst
        refine ⟨h1.trans (g1.trans rfl), h2.trans (g2.trans rfl), h3.trans ?_, h4.trans ?_⟩
        · rw [g3]
          rfl
        · rw [g3]
          rfl

theorem performEffectOnEachSelectedClip_frame (c : Collab) (w : World) (effectId : EffectId)
    (inst : Instance) :
    ledger (performEffectOnEachSelectedClip c w effectId inst).2 = ledger w ∧
    (performEffectOnEachSelectedClip c w effectId inst).2.showEffectLog = w.showEffectLog ∧
    (performEffectOnEachSelectedClip c w effectId inst).2.selection.dataSelectedStartTime =
      w.selection.dataSelectedStartTime ∧
    (performEffectOnEachSelectedClip c w effectId inst).2.selection.dataSelectedEndTime =
      w.selection.dataSelectedEndTime := by
  obtain ⟨h1, h2, h3, h4⟩ :=
    eachSelectedClipLoop_frame c effectId inst w.selection.selectedClips Ret.ok w
  exact ⟨h1, h2, h3, h4⟩

theorem dispatch_frame (c : Collab) (w : World) (effectId : EffectId) (n : Nat)
    (inst : Instance) :
    ledger (dispatch c w effectId n inst).2 = ledger w ∧
    (dispatch c w effectId n inst).2.showEffectLog = w.showEffectLog ∧
    (dispatch c w effectId n inst).2.selection.dataSelectedStartTime =
      w.selection.dataSelectedStartTime ∧
    (dispatch c w effectId n inst).2.selection.dataSelectedEndTime =
      w.selection.dataSelectedEndTime := by
  unfold dispatch
  split
  · exact performEffectOnEachSelectedClip_frame c w effectId inst
  · obtain ⟨h1, h2, h3⟩ := providerPerformEffect_frame c w effectId inst
    exact ⟨h1, h2, by rw [h3], by rw [h3]⟩

theorem cleanup_frame (w : World) (effectId : EffectId) (oldFlags : Nat) (success : Ret)
    (n : Nat) :
    ledger (cleanup w effectId oldFlags success n) = ledger w ∧
    (cleanup w effectId oldFlags success n).showEffectLog = w.showEffectLog ∧
    (cleanup w effectId oldFlags success n).dispatchLog = w.dispatchLog ∧
    (cleanup w effectId oldFlags success n).skipStateFlag = w.skipStateFlag := by
  unfold cleanup
  simp only
  split_ifs <;>
    simp [setEffect, setDataSelectedEndTime, setDataSelectedStartTime, ledger]

theorem cleanup_selection_of_failure (w : World) (effectId : EffectId) (oldFlags : Nat)
    (success : Ret) (n : Nat) (hs : success.success = false) :
    (cleanup w effectId oldFlags success n).selection = w.selection := by
  unfold cleanup
  simp only
  rw [if_neg]
  · simp [setEffect]
  · simp [hs]

theorem rememberLastProcessor_frame (w : World) (effectId : EffectId) :
    (rememberLastProcessor w effectId).showEffectLog = w.showEffectLog ∧
    (rememberLastProcessor w effectId).dispatchLog = w.dispatchLog ∧
    (rememberLastProcessor w effectId).errorLog = w.errorLog ∧
    (rememberLastProcessor w effectId).durationConfig = w.durationConfig := by
  unfold rememberLastProcessor
  simp only
  split_ifs <;> exact ⟨rfl, rfl, rfl, rfl⟩

theorem writeHistory_frame (c : Collab) (w : World) (effectId : EffectId) (flags : Nat) :
    (writeHistory c w effectId flags).showEffectLog = w.showEffectLog ∧
    (writeHistory c w effectId flags).dispatchLog = w.dispatchLog ∧
    (writeHistory c w effectId flags).errorLog = w.errorLog := by
  unfold writeHistory
  simp only
  split_ifs <;> simp [rememberLastProcessor_frame]

theorem performAndRecord_showEffectLog (c : Collab) (w : World) (effectId : EffectId)
    (flags oldFlags n : Nat) (inst : Instance) :
    (performAndRecord c w effectId flags oldFlags n inst).2.showEffectLog = w.showEffectLog := by
  cases h : (dispatch c w effectId n inst).1.success
  · rw [performAndRecord_of_failure _ _ _ _ _ _ _ h]
    simp only
    rw [(cleanup_frame _ _ _ _ _).2.1, (dispatch_frame _ _ _ _ _).2.1]
  · rw [performAndRecord_of_success _ _ _ _ _ _ _ h]
    simp only
    rw [(writeHistory_frame _ _ _ _).1, (cleanup_frame _ _ _ _ _).2.1,
      (dispatch_frame _ _ _ _ _).2.1]

/-- Claim C4, amended: when an effect is invoked through `performEffectWithShowError` and
the settings view is shown (which happens only for an interactive effect with the
pre-configured flag unset) and returns a non-success result, the overall result is
exactly that result, the dispatcher is not called and no history entry is pushed; no
error dialog is shown when the result has code `Cancel`, and for every other code the
error dialog is shown once, with the title of the effect and the text of the result. -/
theorem performEffectWithShowError_declined (c : Collab) (w : World) (effectId : EffectId)
    (flags : Nat) (call : ShowCall)
    (hShown : (performEffectWithShowError c w effectId flags).2.showEffectLog =
      w.showEffectLog ++ [call])
    (hDecline : call.ret.success = false) :
    (performEffectWithShowError c w effectId flags).1 = call.ret ∧
    (performEffectWithShowError c w effectId flags).2.dispatchLog = w.dispatchLog ∧
    (performEffectWithShowError c w effectId flags).2.history = w.history ∧
    (performEffectWithShowError c w effectId flags).2.errorLog =
      (if call.ret.code = Code.Cancel then w.errorLog
       else w.errorLog ++ [(c.title effectId, call.ret.text)]) := by
  have key : (doPerformEffect c w effectId flags).1 = call.ret ∧
      (doPerformEffect c w effectId flags).2.dispatchLog = w.dispatchLog ∧
      (doPerformEffect c w effectId flags).2.history = w.history ∧
      (doPerformEffect c w effectId flags).2.errorLog = w.errorLog := by
    have hShown1 : (doPerformEffect c w effectId flags).2.showEffectLog =
        w.showEffectLog ++ [call] := by
      rw [← hShown]
      unfold performEffectWithShowError
      simp only
      split_ifs <;> rfl
    have ho := doPerformEffect_outcome c w effectId flags
    generalize doPerformEffect c w effectId flags = res at ho hShown1 ⊢
    cases ho with
    | invalid r h1 => simp at hShown1
    | noSettings t0 t1 isSelection h1 h2 => simp at hShown1
    | noInstance t0 t1 isSelection settings h1 h2 h4 =>
      rw [(formAndSetup_frame c w effectId flags t0 t1 isSelection settings).2.1] at hShown1
      simp at hShown1
    | declined t0 t1 isSelection settings pInstanceEx rw h1 h2 h4 h5 =>
      obtain ⟨f1, f2, f3, f4⟩ := formAndSetup_frame c w effectId flags t0 t1 isSelection settings
      obtain ⟨g1, g2, g3, g4⟩ := modifySettingsByUser_error_frame _ _ _ _ _ h5
      rw [g4, f2] at hShown1
      have hc := List.append_cancel_left hShown1
      simp only [List.cons.injEq, and_true] at hc
      have hl := g1.trans f1
      refine ⟨?_, g2.trans f3, congrArg Ledger.history hl, congrArg Ledger.errorLog hl⟩
      rw [← hc]
    | dispatched t0 t1 isSelection settings pInstanceEx w4 h1 h2 h4 h5 =>
      obtain ⟨f1, f2, f3, f4⟩ := formAndSetup_frame c w effectId flags t0 t1 isSelection settings
      obtain ⟨g1, g2, g3, g4⟩ := modifySettingsByUser_ok_frame _ _ _ _ _ h5
      rw [performAndRecord_showEffectLog] at hShown1
      simp only at hShown1
      rcases g4 with g4 | ⟨r, hr, g4⟩
      · rw [g4, f2] at hShown1
        simp at hShown1
      · rw [g4, f2] at hShown1
        have hc := List.append_cancel_left hShown1
        simp only [List.cons.injEq, and_true] at hc
        rw [← hc] at hDecline
        simp only at hDecline
        rw [hr] at hDecline
        cases hDecline
  obtain ⟨k1, k2, k3, k4⟩ := key
  unfold performEffectWithShowError
  simp only
  by_cases hCancel : call.ret.code = Code.Cancel
  · rw [if_neg (by rw [k1]; simp [hCancel]), if_pos hCancel]
    exact ⟨k1, k2, k3, k4⟩
  · rw [if_pos (by rw [k1]; exact ⟨hDecline, hCancel⟩), if_neg hCancel]
    simp only
    refine ⟨k1, k2, k3, ?_⟩
    rw [k4, k1]
    rfl

/-- Witness of C4 amended: the user cancels the settings view of `reverb`. -/
theorem performEffectWithShowError_declined_witness :
    ((performEffectWithShowError (sampleCollab { code := Code.Cancel, text := "cancelled" })
        (sampleWorld [] [] 2 5) "reverb" 0).2.showEffectLog =
        (sampleWorld [] [] 2 5).showEffectLog ++
          [{ type := "reverb", instanceId := 1, ret := { code := Code.Cancel, text := "cancelled" } }] ∧
      ({ code := Code.Cancel, text := "cancelled" } : Ret).success = false) ∧
    (performEffectWithShowError (sampleCollab { code := Code.Cancel, text := "cancelled" })
        (sampleWorld [] [] 2 5) "reverb" 0).1 = { code := Code.Cancel, text := "cancelled" } ∧
    (performEffectWithShowError (sampleCollab { code := Code.Cancel, text := "cancelled" })
        (sampleWorld [] [] 2 5) "reverb" 0).2.dispatchLog = (sampleWorld [] [] 2 5).dispatchLog ∧
    (performEffectWithShowError (sampleCollab { code := Code.Cancel, text := "cancelled" })
        (sampleWorld [] [] 2 5) "reverb" 0).2.history = (sampleWorld [] [] 2 5).history ∧
    (performEffectWithShowError (sampleCollab { code := Code.Cancel, text := "cancelled" })
        (sampleWorld [] [] 2 5) "reverb" 0).2.errorLog =
      (if ({ code := Code.Cancel, text := "cancelled" } : Ret).code = Code.Cancel then
        (sampleWorld [] [] 2 5).errorLog
       else (sampleWorld [] [] 2 5).errorLog ++
        [((sampleCollab { code := Code.Cancel, text := "cancelled" }).title "reverb",
          ({ code := Code.Cancel, text := "cancelled" } : Ret).text)]) :=
  ⟨⟨by decide, by decide⟩,
    performEffectWithShowError_declined (sampleCollab { code := Code.Cancel, text := "cancelled" })
      (sampleWorld [] [] 2 5) "reverb" 0
      { type := "reverb", instanceId := 1, ret := { code := Code.Cancel, text := "cancelled" } }
      (by decide) (by decide)⟩

/-- Claim C4, counterexample: `reverb` is interactive, the pre-configured flag is unset,
the settings view is shown and returns the non-success result `UnknownError`; the
overall result is that result, and the error dialog is shown. -/
theorem performEffectWithShowError_declined_counterexample :
    (sampleCollab { code := Code.UnknownError, text := "no view" }).isInteractive "reverb" = true ∧
    0 &&& kConfigured = 0 ∧
    (performEffectWithShowError (sampleCollab { code := Code.UnknownError, text := "no view" })
        (sampleWorld [] [] 2 5) "reverb" 0).2.showEffectLog =
      (sampleWorld [] [] 2 5).showEffectLog ++
        [{ type := "reverb", instanceId := 1,
           ret := { code := Code.UnknownError, text := "no view" } }] ∧
    ({ code := Code.UnknownError, text := "no view" } : Ret).success = false ∧
    (performEffectWithShowError (sampleCollab { code := Code.UnknownError, text := "no view" })
        (sampleWorld [] [] 2 5) "reverb" 0).1 = { code := Code.UnknownError, text := "no view" } ∧
    (performEffectWithShowError (sampleCollab { code := Code.UnknownError, text := "no view" })
        (sampleWorld [] [] 2 5) "reverb" 0).2.errorLog = [("reverb", "no view")] ∧
    (performEffectWithShowError (sampleCollab { code := Code.UnknownError, text := "no view" })
        (sampleWorld [] [] 2 5) "reverb" 0).2.errorLog ≠ (sampleWorld [] [] 2 5).errorLog := by
  refine ⟨by decide, by decide, by decide, by decide, by decide, by decide, by decide⟩

/-! ### The loop over the selected clips -/

theorem eachSelectedClipLoop_cons_skip (c : Collab) (effectId : EffectId) (inst : Instance)
    (clip : ClipKey) (rest : List ClipKey) (success : Ret) (w : World)
    (h : lookupClip c clip = none) :
    eachSelectedClipLoop c effectId inst (clip :: rest) success w =
      eachSelectedClipLoop c effectId inst rest success
        (setSelectedTracks (setSelectedClips w [clip]) [clip.trackId]) := by
  unfold lookupClip at h
  rw [eachSelectedClipLoop]
  simp only
  split
  · rfl
  · rename_i waveTrack hT
    rw [hT] at h
    simp only at h
    rw [h]

/-- World in which the dispatcher is called for a clip that has been found. -/
theorem eachSelectedClipLoop_cons_hit (c : Collab) (effectId : EffectId) (inst : Instance)
    (clip : ClipKey) (rest : List ClipKey) (success : Ret) (w : World) (waveClip : WaveClip)
    (h : lookupClip c clip = some waveClip) :
    ∃ w3 : World,
      w3.dispatchLog = w.dispatchLog ∧ w3.selection.selectedClips = [clip] ∧
      (w3.effects effectId).mT0 = waveClip.playStartTime ∧
      (w3.effects effectId).mT1 = waveClip.playEndTime ∧
      eachSelectedClipLoop c effectId inst (clip :: rest) success w =
        eachSelectedClipLoop c effectId inst rest
          (if (success.success && !(providerPerformEffect c w3 effectId inst).1.success) = true
            then (providerPerformEffect c w3 effectId inst).1 else success)
          (providerPerformEffect c w3 effectId inst).2 := by
  unfold lookupClip at h
  refine ⟨setEffect (setSelectedTracks (setSelectedClips w [clip]) [clip.trackId]) effectId
    { (setSelectedTracks (setSelectedClips w [clip]) [clip.trackId]).effects effectId with
      mT0 := waveClip.playStartTime, mT1 := waveClip.playEndTime }, rfl, rfl, ?_, ?_, ?_⟩
  · simp [setEffect]
  · simp [setEffect]
  · rw [eachSelectedClipLoop]
    simp only
    split
    · rename_i hT
      rw [hT] at h
      cases h
    · rename_i waveTrack hT
      rw [hT] at h
      simp only at h
      rw [h]

theorem eachSelectedClipLoop_calls (c : Collab) (effectId : EffectId) (inst : Instance)
    (clips : List ClipKey) :
    ∀ (success : Ret) (w : World), ∃ calls : List DispatchCall,
      (eachSelectedClipLoop c effectId inst clips success w).2.dispatchLog =
        w.dispatchLog ++ calls ∧
      calls.map (fun d => (d.effectId, d.selectedClips, d.t0, d.t1)) =
        clips.filterMap (fun clip => (lookupClip c clip).map
          (fun waveClip => (effectId, [clip], waveClip.playStartTime, waveClip.playEndTime))) ∧
      (eachSelectedClipLoop c effectId inst clips success w).1 =
        (if success.success = true then firstFailureOr success calls else success) := by
  induction clips with
  | nil =>
    intro success w
    refine ⟨[], ?_, ?_, ?_⟩
    · simp [eachSelectedClipLoop]
    · simp
    · simp [eachSelectedClipLoop, firstFailureOr]
  | cons clip rest ih =>
    intro success w
    cases hL : lookupClip c clip with
    | none =>
      rw [eachSelectedClipLoop_cons_skip c effectId inst clip rest success w hL]
      obtain ⟨calls, h1, h2, h3⟩ :=
        ih success (setSelectedTracks (setSelectedClips w [clip]) [clip.trackId])
      refine ⟨calls, h1, ?_, h3⟩
      rw [h2]
      simp [List.filterMap_cons, hL]
    | some waveClip =>
      obtain ⟨w3, e1, e2, e3, e4, e5⟩ :=
        eachSelectedClipLoop_cons_hit c effectId inst clip rest success w waveClip hL
      rw [e5]
      have e6 : (providerPerformEffect c w3 effectId inst).2.dispatchLog =
          w.dispatchLog ++
            [{ effectId := effectId, t0 := waveClip.playStartTime, t1 := waveClip.playEndTime,
               selectedClips := [clip], ret := (providerPerformEffect c w3 effectId inst).1 }] := by
        simp [providerPerformEffect, e1, e2, e3, e4]
      obtain ⟨calls, h1, h2, h3⟩ := ih
        (if (success.success && !(providerPerformEffect c w3 effectId inst).1.success) = true then
          (providerPerformEffect c w3 effectId inst).1 else success)
        (providerPerformEffect c w3 effectId inst).2
      refine ⟨{ effectId := effectId, t0 := waveClip.playStartTime,
                t1 := waveClip.playEndTime, selectedClips := [clip],
                ret := (providerPerformEffect c w3 effectId inst).1 } :: calls, ?_, ?_, ?_⟩
      · rw [h1, e6]
        simp
      · rw [List.map_cons, h2]
        simp [List.filterMap_cons, hL]
      · rw [h3]
        cases hs : success.success
        · simp [hs]
        · cases hr : (providerPerformEffect c w3 effectId inst).1.success
          · simp [firstFailureOr, hr]
          · simp [firstFailureOr, hr, hs]

theorem firstFailureOr_success (calls : List DispatchCall) :
    (firstFailureOr Ret.ok calls).success = true ↔ ∀ d ∈ calls, d.ret.success = true := by
  unfold firstFailureOr
  cases h : calls.find? (fun d => !d.ret.success) with
  | none =>
    simp only
    rw [List.find?_eq_none] at h
    constructor
    · intro _ d hd
      simpa using h d hd
    · intro _
      rfl
  | some d =>
    simp only
    have h1 := List.find?_some h
    have h2 := List.mem_of_find?_eq_some h
    constructor
    · intro hd
      simp [hd] at h1
    · intro hall
      exact hall d h2

/-- Claim C6: `performEffectOnEachSelectedClip` appends to the dispatch log exactly one
call for every selected clip whose track and clip lookups both succeed, in selection
order, each with that clip alone selected and the clip bounds as time window, and none
for a clip whose lookup fails; also after a failed call the later clips are dispatched.
The result is that of the first failing call, and success when no call fails, so it is
success iff every dispatched clip succeeded. -/
theorem performEffectOnEachSelectedClip_calls (c : Collab) (w : World) (effectId : EffectId)
    (inst : Instance) :
    ∃ calls : List DispatchCall,
      (performEffectOnEachSelectedClip c w effectId inst).2.dispatchLog =
        w.dispatchLog ++ calls ∧
      calls.map (fun d => (d.effectId, d.selectedClips, d.t0, d.t1)) =
        w.selection.selectedClips.filterMap (fun clip => (lookupClip c clip).map
          (fun waveClip => (effectId, [clip], waveClip.playStartTime, waveClip.playEndTime))) ∧
      (performEffectOnEachSelectedClip c w effectId inst).1 = firstFailureOr Ret.ok calls ∧
      ((performEffectOnEachSelectedClip c w effectId inst).1.success = true ↔
        ∀ d ∈ calls, d.ret.success = true) := by
  obtain ⟨calls, h1, h2, h3⟩ :=
    eachSelectedClipLoop_calls c effectId inst w.selection.selectedClips Ret.ok w
  have h4 : (performEffectOnEachSelectedClip c w effectId inst).1 = firstFailureOr Ret.ok calls := by
    unfold performEffectOnEachSelectedClip
    simp only
    rw [h3]
    rfl
  refine ⟨calls, ?_, h2, h4, ?_⟩
  · unfold performEffectOnEachSelectedClip
    simp only [setSelectedClips]
    exact h1
  · rw [h4]
    exact firstFailureOr_success calls

/-- Selection left by the loop: the selected tracks are those of the last clip of the
list, whether its lookup succeeded or not. -/
theorem eachSelectedClipLoop_selectedTracks (c : Collab) (effectId : EffectId)
    (inst : Instance) (clips : List ClipKey) :
    ∀ (success : Ret) (w : World),
      (eachSelectedClipLoop c effectId inst clips success w).2.selection.selectedTracks =
        (match clips.getLast? with
         | none => w.selection.selectedTracks
         | some clip => [clip.trackId]) := by
  induction clips with
  | nil =>
    intro success w
    simp [eachSelectedClipLoop]
  | cons clip rest ih =>
    intro success w
    have hlast : (match (clip :: rest).getLast? with
        | none => w.selection.selectedTracks
        | some k => [k.trackId]) =
        (match rest.getLast? with
        | none => [clip.trackId]
        | some k => [k.trackId]) := by
      cases rest with
      | nil => rfl
      | cons b l =>
        rw [List.getLast?_cons_cons]
        cases hb : (b :: l).getLast? with
        | none => simp at hb
        | some k => rfl
    rw [hlast]
    cases hL : lookupClip c clip with
    | none =>
      rw [eachSelectedClipLoop_cons_skip c effectId inst clip rest success w hL, ih]
      rfl
    | some waveClip =>
      rw [eachSelectedClipLoop]
      unfold lookupClip at hL
      simp only
      split
      · rename_i hT
        rw [hT] at hL
        cases hL
      · rename_i waveTrack hT
        rw [hT] at hL
        simp only at hL
        rw [hL]
        simp only
        rw [ih]
        rfl

/-- Selection left by `performEffectOnEachSelectedClip`: the selected clips are the
snapshot, the selected tracks are those of the last clip processed. -/
theorem performEffectOnEachSelectedClip_selection (c : Collab) (w : World)
    (effectId : EffectId) (inst : Instance) :
    (performEffectOnEachSelectedClip c w effectId inst).2.selection.selectedClips =
      w.selection.selectedClips ∧
    (performEffectOnEachSelectedClip c w effectId inst).2.selection.selectedTracks =
      (match w.selection.selectedClips.getLast? with
       | none => w.selection.selectedTracks
       | some clip => [clip.trackId]) := by
  refine ⟨rfl, ?_⟩
  exact eachSelectedClipLoop_selectedTracks c effectId inst w.selection.selectedClips Ret.ok w

/-- Claim C5, the code at the failing input: three clips on the tracks 1, 2 and 3 are
selected together with these three tracks, and the lookup of the second clip fails.
After `performEffectOnEachSelectedClip` the selected clips are the snapshot again, but
the selected tracks are track 3 alone and not the snapshot. -/
theorem performEffectOnEachSelectedClip_tracks_not_restored :
    (performEffectOnEachSelectedClip (sampleCollab Ret.ok)
        (sampleWorld [⟨1, 10⟩, ⟨2, 20⟩, ⟨3, 30⟩] [1, 2, 3] 0 0) "amplify"
        { handle := 0 }).2.selection.selectedClips = [⟨1, 10⟩, ⟨2, 20⟩, ⟨3, 30⟩] ∧
    (performEffectOnEachSelectedClip (sampleCollab Ret.ok)
        (sampleWorld [⟨1, 10⟩, ⟨2, 20⟩, ⟨3, 30⟩] [1, 2, 3] 0 0) "amplify"
        { handle := 0 }).2.selection.selectedTracks = [3] ∧
    (sampleWorld [⟨1, 10⟩, ⟨2, 20⟩, ⟨3, 30⟩] [1, 2, 3] 0 0).selection.selectedTracks =
      [1, 2, 3] ∧
    lookupClip (sampleCollab Ret.ok) ⟨2, 20⟩ = none := by
  refine ⟨by decide, by decide, by decide, by decide⟩

/-! ### The repeat memory -/

theorem rememberLastProcessor_same (w : World) (effectId : EffectId)
    (h : w.m_lastProcessorId = some effectId) : rememberLastProcessor w effectId = w := by
  unfold rememberLastProcessor
  simp [h]

theorem destutter_head (x : EffectId) (ids : List EffectId) :
    List.destutter' (fun a b => a ≠ b) x ids =
      x :: (List.destutter' (fun a b => a ≠ b) x ids).tail := by
  induction ids generalizing x with
  | nil => rfl
  | cons b l ih =>
    rw [List.destutter'_cons]
    split
    · rfl
    · exact ih x

theorem rememberLastProcessor_foldl_some (ids : List EffectId) :
    ∀ (w : World) (x : EffectId), w.m_lastProcessorId = some x →
      (ids.foldl rememberLastProcessor w).m_lastProcessorIdChanged =
        w.m_lastProcessorIdChanged ++ (List.destutter' (fun a b => a ≠ b) x ids).tail ∧
      (ids.foldl rememberLastProcessor w).m_lastProcessorIsAvailableChanged =
        w.m_lastProcessorIsAvailableChanged := by
  induction ids with
  | nil =>
    intro w x _
    simp
  | cons b l ih =>
    intro w x hx
    rw [List.foldl_cons, List.destutter'_cons]
    by_cases hb : x = b
    · subst hb
      rw [rememberLastProcessor_same w x hx, if_neg (by simp)]
      exact ih w x hx
    · have hstep : rememberLastProcessor w b =
          { w with
            m_lastProcessorId := some b
            m_lastProcessorIdChanged := w.m_lastProcessorIdChanged ++ [b] } := by
        unfold rememberLastProcessor
        simp [hx, hb]
      rw [hstep, if_pos hb]
      obtain ⟨h1, h2⟩ := ih
        { w with
          m_lastProcessorId := some b
          m_lastProcessorIdChanged := w.m_lastProcessorIdChanged ++ [b] } b rfl
      refine ⟨?_, h2⟩
      rw [h1, destutter_head b l]
      simp

/-- Claim C7: over every sequence `ids` of updates of the repeat memory, starting from
any state, the values sent on the "changed" channel are `ids` with every id equal to the
one stored just before it left out (so the same id set twice in a row is sent once), and
the "became available" notification is sent once if the memory was empty and at least
one update is made, and not at all otherwise: once set, never again. -/
theorem rememberLastProcessor_notifications (w : World) (ids : List EffectId) :
    (ids.foldl rememberLastProcessor w).m_lastProcessorIdChanged =
      w.m_lastProcessorIdChanged ++
        (match w.m_lastProcessorId with
         | none => List.destutter (fun a b => a ≠ b) ids
         | some x => (List.destutter (fun a b => a ≠ b) (x :: ids)).tail) ∧
    (ids.foldl rememberLastProcessor w).m_lastProcessorIsAvailableChanged =
      w.m_lastProcessorIsAvailableChanged +
        (if w.m_lastProcessorId = none ∧ ids ≠ [] then 1 else 0) := by
  cases hm : w.m_lastProcessorId with
  | some x =>
    obtain ⟨h1, h2⟩ := rememberLastProcessor_foldl_some ids w x hm
    simp only [List.destutter_cons']
    exact ⟨h1, by simpa using h2⟩
  | none =>
    cases ids with
    | nil => simp
    | cons b l =>
      have hstep : rememberLastProcessor w b =
          { w with
            m_lastProcessorId := some b
            m_lastProcessorIdChanged := w.m_lastProcessorIdChanged ++ [b]
            m_lastProcessorIsAvailableChanged := w.m_lastProcessorIsAvailableChanged + 1 } := by
        unfold rememberLastProcessor
        simp [hm]
      rw [List.foldl_cons, hstep]
      obtain ⟨h1, h2⟩ := rememberLastProcessor_foldl_some l
        { w with
          m_lastProcessorId := some b
          m_lastProcessorIdChanged := w.m_lastProcessorIdChanged ++ [b]
          m_lastProcessorIsAvailableChanged := w.m_lastProcessorIsAvailableChanged + 1 } b rfl
      refine ⟨?_, ?_⟩
      · rw [h1, List.destutter_cons']
        simp only
        rw [destutter_head b l]
        simp
      · rw [h2]
        simp

/-! ### The settings and the time window -/

theorem formSettings_of_selection (c : Collab) (w : World) (effectId : EffectId)
    (t0 t1 : secs_t) (isSelection : Bool) (settings : EffectSettings) (hSel : t0 < t1) :
    (formSettings c w effectId t0 t1 isSelection settings).2.extra.duration =
      QUANTIZED_TIME t1 w.projectRate - QUANTIZED_TIME t0 w.projectRate ∧
    (formSettings c w effectId t0 t1 isSelection settings).1.t0 = t0 ∧
    (formSettings c w effectId t0 t1 isSelection settings).1.t1 =
      t0 + (QUANTIZED_TIME t1 w.projectRate - QUANTIZED_TIME t0 w.projectRate) := by
  unfold formSettings
  simp only
  rw [if_pos hSel]
  exact ⟨rfl, rfl, rfl⟩

theorem formAndSetup_window (c : Collab) (w : World) (effectId : EffectId) (flags : Nat)
    (t0 t1 : secs_t) (isSelection : Bool) (settings : EffectSettings) :
    ((formAndSetup c w effectId flags t0 t1 isSelection settings).effects effectId).mT0 =
      (formSettings c w effectId t0 t1 isSelection settings).1.t0 ∧
    ((formAndSetup c w effectId flags t0 t1 isSelection settings).effects effectId).mT1 =
      (formSettings c w effectId t0 t1 isSelection settings).1.t1 ∧
    (formAndSetup c w effectId flags t0 t1 isSelection settings).defaultSettings effectId =
      some (formSettings c w effectId t0 t1 isSelection settings).2 := by
  unfold formAndSetup setupEffect
  simp only
  split_ifs <;> simp [setEffect]

/-- In exact arithmetic, that is for `formSettings`, where no operation is rounded: for a
real selection `t0 < t1` and a project rate above zero, the duration is
`round (t1 * rate) / rate - round (t0 * rate) / rate`, the start of the window is kept
and its end is start plus duration; this is the window and the duration that the effect
object and the stored settings receive; and the length of the window times the rate is
an integer. In double arithmetic the last part holds only up to rounding. -/
theorem formSettings_quantized (c : Collab) (w : World) (effectId : EffectId) (flags : Nat)
    (t0 t1 : secs_t) (isSelection : Bool) (settings : EffectSettings)
    (hSel : t0 < t1) (hRate : 0 < w.projectRate) :
    (formSettings c w effectId t0 t1 isSelection settings).2.extra.duration =
      (round (t1 * w.projectRate) : ℚ) / w.projectRate -
        (round (t0 * w.projectRate) : ℚ) / w.projectRate ∧
    (formSettings c w effectId t0 t1 isSelection settings).1.t0 = t0 ∧
    (formSettings c w effectId t0 t1 isSelection settings).1.t1 =
      (formSettings c w effectId t0 t1 isSelection settings).1.t0 +
        (formSettings c w effectId t0 t1 isSelection settings).2.extra.duration ∧
    ((formAndSetup c w effectId flags t0 t1 isSelection settings).effects effectId).mT0 =
      (formSettings c w effectId t0 t1 isSelection settings).1.t0 ∧
    ((formAndSetup c w effectId flags t0 t1 isSelection settings).effects effectId).mT1 =
      (formSettings c w effectId t0 t1 isSelection settings).1.t1 ∧
    (formAndSetup c w effectId flags t0 t1 isSelection settings).defaultSettings effectId =
      some (formSettings c w effectId t0 t1 isSelection settings).2 ∧
    ∃ n : ℤ, ((formSettings c w effectId t0 t1 isSelection settings).1.t1 -
      (formSettings c w effectId t0 t1 isSelection settings).1.t0) * w.projectRate = (n : ℚ) := by
  obtain ⟨h1, h2, h3⟩ := formSettings_of_selection c w effectId t0 t1 isSelection settings hSel
  obtain ⟨g1, g2, g3⟩ := formAndSetup_window c w effectId flags t0 t1 isSelection settings
  have hne : w.projectRate ≠ 0 := ne_of_gt hRate
  refine ⟨h1, h2, ?_, g1, g2, g3, round (t1 * w.projectRate) - round (t0 * w.projectRate), ?_⟩
  · rw [h3, h2, h1]
  · rw [h3, h2]
    unfold QUANTIZED_TIME
    push_cast
    field_simp
    ring

/-- In exact arithmetic, that is for `formSettings`, where no operation is rounded: for a
project rate above zero and a real selection `t0 < t1` whose two ends are exact multiples
of `1 / rate`, start and end of the window are left as they are and the duration is
`t1 - t0`. In double arithmetic this needs that no operation rounds. -/
theorem formSettings_aligned (c : Collab) (w : World) (effectId : EffectId)
    (t0 t1 : secs_t) (isSelection : Bool) (settings : EffectSettings) (a b : ℤ)
    (hSel : t0 < t1) (hRate : 0 < w.projectRate)
    (h0 : t0 = (a : ℚ) * (1 / w.projectRate)) (h1 : t1 = (b : ℚ) * (1 / w.projectRate)) :
    (formSettings c w effectId t0 t1 isSelection settings).1.t0 = t0 ∧
    (formSettings c w effectId t0 t1 isSelection settings).1.t1 = t1 ∧
    (formSettings c w effectId t0 t1 isSelection settings).2.extra.duration = t1 - t0 := by
  obtain ⟨g1, g2, g3⟩ := formSettings_of_selection c w effectId t0 t1 isSelection settings hSel
  have hne : w.projectRate ≠ 0 := ne_of_gt hRate
  have q0 : QUANTIZED_TIME t0 w.projectRate = t0 := by
    unfold QUANTIZED_TIME
    have : t0 * w.projectRate = (a : ℚ) := by
      rw [h0]
      field_simp
    rw [this, round_intCast, h0]
    field_simp
  have q1 : QUANTIZED_TIME t1 w.projectRate = t1 := by
    unfold QUANTIZED_TIME
    have : t1 * w.projectRate = (b : ℚ) := by
      rw [h1]
      field_simp
    rw [this, round_intCast, h1]
    field_simp
  rw [g1, g2, g3, q0, q1]
  exact ⟨rfl, by ring, rfl⟩

/-! ### The project history -/

theorem or_kSkipState_and (flags : Nat) : (flags ||| kSkipState) &&& kSkipState ≠ 0 := by
  intro h
  have h2 : Nat.testBit 2 1 = true := by decide
  have h1 : ((flags ||| kSkipState) &&& kSkipState).testBit 1 = true := by
    simp [kSkipState, Nat.testBit_and, Nat.testBit_or, h2]
  rw [h] at h1
  simp at h1

theorem writeHistory_history (c : Collab) (w : World) (effectId : EffectId) (flags : Nat) :
    (writeHistory c w effectId flags).history =
      (if flags &&& kSkipState = 0 ∧ w.skipStateFlag = false then
        w.history ++ [historyEntry c effectId]
       else w.history) := by
  unfold writeHistory
  cases hs : w.skipStateFlag
  · simp only [Bool.false_eq_true, if_false, and_true]
    split_ifs <;> simp [rememberLastProcessor_history]
  · simp only [if_true, if_neg (or_kSkipState_and flags)]
    split_ifs <;> simp_all [rememberLastProcessor_history]

theorem performAndRecord_history (c : Collab) (w : World) (effectId : EffectId)
    (flags oldFlags n : Nat) (inst : Instance) :
    (performAndRecord c w effectId flags oldFlags n inst).2.history =
      (if (performAndRecord c w effectId flags oldFlags n inst).1.success = true ∧
          flags &&& kSkipState = 0 ∧
          (performAndRecord c w effectId flags oldFlags n inst).2.skipStateFlag = false then
        w.history ++ [historyEntry c effectId]
       else w.history) := by
  have hd0 := (dispatch_frame c w effectId n inst).1
  cases hd : (dispatch c w effectId n inst).1.success
  · rw [performAndRecord_of_failure _ _ _ _ _ _ _ hd]
    generalize dispatch c w effectId n inst = d at hd hd0 ⊢
    have hl := congrArg Ledger.history
      (((cleanup_frame d.2 effectId oldFlags d.1 n).1).trans hd0)
    simp only [hd, Bool.false_eq_true, false_and, if_false]
    exact hl
  · rw [performAndRecord_of_success _ _ _ _ _ _ _ hd]
    generalize dispatch c w effectId n inst = d at hd hd0 ⊢
    have hl : (cleanup d.2 effectId oldFlags d.1 n).history = w.history :=
      congrArg Ledger.history (((cleanup_frame d.2 effectId oldFlags d.1 n).1).trans hd0)
    have hok : Ret.ok.success = true := rfl
    simp only [writeHistory_history, writeHistory_skipStateFlag, hl, hok, true_and]

/-- Claim C10: `doPerformEffect` appends exactly one entry to the history, with the
description "Applied effect: " followed by the display name of the effect and with that
name as label, when the invocation succeeded (that is, the dispatch was reached and
succeeded), the skip-history flag is not in `flags` and the skip-state flag of the effect
manager, reset before the dispatch, has not been raised since; in every other case the
history is left as it was. -/
theorem doPerformEffect_history (c : Collab) (w : World) (effectId : EffectId) (flags : Nat) :
    (doPerformEffect c w effectId flags).2.history =
      (if (doPerformEffect c w effectId flags).1.success = true ∧ flags &&& kSkipState = 0 ∧
          (doPerformEffect c w effectId flags).2.skipStateFlag = false then
        w.history ++ [("Applied effect: " ++ c.pluginName effectId, c.pluginName effectId)]
       else w.history) := by
  have ho := doPerformEffect_outcome c w effectId flags
  generalize doPerformEffect c w effectId flags = res at ho ⊢
  cases ho with
  | invalid r h1 =>
    simp [checkInputParams_error_success c w effectId r h1]
  | noSettings t0 t1 isSelection h1 h2 =>
    simp [make_ret_success]
  | noInstance t0 t1 isSelection settings h1 h2 h4 =>
    have hl := (formAndSetup_frame c w effectId flags t0 t1 isSelection settings).1
    simp only [make_ret_success c _ (show Code.UnknownError ≠ Code.Ok by decide),
      Bool.false_eq_true, false_and, if_false]
    exact congrArg Ledger.history hl
  | declined t0 t1 isSelection settings pInstanceEx rw h1 h2 h4 h5 =>
    have hl := ((modifySettingsByUser_error_frame _ _ _ _ _ h5).1).trans
      (formAndSetup_frame c w effectId flags t0 t1 isSelection settings).1
    simp only [modifySettingsByUser_error_success _ _ _ _ _ h5, Bool.false_eq_true, false_and,
      if_false]
    exact congrArg Ledger.history hl
  | dispatched t0 t1 isSelection settings pInstanceEx w4 h1 h2 h4 h5 =>
    have hl4 : w4.history = w.history := congrArg Ledger.history
      (((modifySettingsByUser_ok_frame _ _ _ _ _ h5).1).trans
        (formAndSetup_frame c w effectId flags t0 t1 isSelection settings).1)
    rw [performAndRecord_history]
    simp only [hl4, historyEntry]

/-! ### The error dialog and the repeat command -/

theorem performAndRecord_errorLog (c : Collab) (w : World) (effectId : EffectId)
    (flags oldFlags n : Nat) (inst : Instance) :
    (performAndRecord c w effectId flags oldFlags n inst).2.errorLog = w.errorLog := by
  have hd0 := (dispatch_frame c w effectId n inst).1
  cases hd : (dispatch c w effectId n inst).1.success
  · rw [performAndRecord_of_failure _ _ _ _ _ _ _ hd]
    generalize dispatch c w effectId n inst = d at hd hd0 ⊢
    exact congrArg Ledger.errorLog (((cleanup_frame d.2 effectId oldFlags d.1 n).1).trans hd0)
  · rw [performAndRecord_of_success _ _ _ _ _ _ _ hd]
    generalize dispatch c w effectId n inst = d at hd hd0 ⊢
    simp only
    rw [(writeHistory_frame _ _ _ _).2.2]
    exact congrArg Ledger.errorLog (((cleanup_frame d.2 effectId oldFlags d.1 n).1).trans hd0)

theorem doPerformEffect_errorLog (c : Collab) (w : World) (effectId : EffectId) (flags : Nat) :
    (doPerformEffect c w effectId flags).2.errorLog = w.errorLog := by
  have ho := doPerformEffect_outcome c w effectId flags
  generalize doPerformEffect c w effectId flags = res at ho ⊢
  cases ho with
  | invalid r h1 => rfl
  | noSettings t0 t1 isSelection h1 h2 => rfl
  | noInstance t0 t1 isSelection settings h1 h2 h4 =>
    exact congrArg Ledger.errorLog
      (formAndSetup_frame c w effectId flags t0 t1 isSelection settings).1
  | declined t0 t1 isSelection settings pInstanceEx rw h1 h2 h4 h5 =>
    exact congrArg Ledger.errorLog (((modifySettingsByUser_error_frame _ _ _ _ _ h5).1).trans
      (formAndSetup_frame c w effectId flags t0 t1 isSelection settings).1)
  | dispatched t0 t1 isSelection settings pInstanceEx w4 h1 h2 h4 h5 =>
    rw [performAndRecord_errorLog]
    exact congrArg Ledger.errorLog (((modifySettingsByUser_ok_frame _ _ _ _ _ h5).1).trans
      (formAndSetup_frame c w effectId flags t0 t1 isSelection settings).1)

/-- Claim C11: `performEffectWithShowError` returns the result of `doPerformEffect` as it
is; `doPerformEffect` itself never opens the error dialog, and the wrapper opens it
exactly once, with the title of the effect and the text of the result, when the result
is non-success with a code other than `Cancel`, and not at all otherwise. -/
theorem performEffectWithShowError_reports (c : Collab) (w : World) (effectId : EffectId)
    (flags : Nat) :
    (performEffectWithShowError c w effectId flags).1 = (doPerformEffect c w effectId flags).1 ∧
    (doPerformEffect c w effectId flags).2.errorLog = w.errorLog ∧
    (performEffectWithShowError c w effectId flags).2.errorLog =
      (if (doPerformEffect c w effectId flags).1.success = false ∧
          (doPerformEffect c w effectId flags).1.code ≠ Code.Cancel then
        w.errorLog ++
          [(c.title effectId, (doPerformEffect c w effectId flags).1.text)]
       else w.errorLog) := by
  have he := doPerformEffect_errorLog c w effectId flags
  refine ⟨?_, he, ?_⟩
  · unfold performEffectWithShowError
    simp only
    split_ifs <;> rfl
  · unfold performEffectWithShowError
    simp only
    split_ifs
    · simp only [he, makeErrorMsg]
    · exact he

theorem modifySettingsByUser_of_configured (c : Collab) (w : World) (effectId : EffectId)
    (flags : Nat) (h : flags &&& kConfigured ≠ 0) :
    modifySettingsByUser c w effectId flags = Except.ok w := by
  unfold modifySettingsByUser
  simp only
  rw [if_neg]
  exact fun hc => h hc.2

theorem doPerformEffect_showEffectLog_of_configured (c : Collab) (w : World)
    (effectId : EffectId) (flags : Nat) (h : flags &&& kConfigured ≠ 0) :
    (doPerformEffect c w effectId flags).2.showEffectLog = w.showEffectLog := by
  have ho := doPerformEffect_outcome c w effectId flags
  generalize doPerformEffect c w effectId flags = res at ho ⊢
  cases ho with
  | invalid r h1 => rfl
  | noSettings t0 t1 isSelection h1 h2 => rfl
  | noInstance t0 t1 isSelection settings h1 h2 h4 =>
    exact (formAndSetup_frame c w effectId flags t0 t1 isSelection settings).2.1
  | declined t0 t1 isSelection settings pInstanceEx rw h1 h2 h4 h5 =>
    rw [modifySettingsByUser_of_configured _ _ _ _ h] at h5
    cases h5
  | dispatched t0 t1 isSelection settings pInstanceEx w4 h1 h2 h4 h5 =>
    rw [modifySettingsByUser_of_configured _ _ _ _ h] at h5
    cases h5
    rw [performAndRecord_showEffectLog]
    exact (formAndSetup_frame c w effectId flags t0 t1 isSelection settings).2.1

theorem performEffectWithShowError_showEffectLog (c : Collab) (w : World)
    (effectId : EffectId) (flags : Nat) :
    (performEffectWithShowError c w effectId flags).2.showEffectLog =
      (doPerformEffect c w effectId flags).2.showEffectLog := by
  unfold performEffectWithShowError
  simp only
  split_ifs <;> rfl

/-- Claim C12: when no last-processor id is stored, `repeatLastProcessor` returns
`UnknownError` and leaves the world as it is, so no effect is invoked; otherwise it is
`performEffectWithShowError` for the stored id with the flag `kConfigured`. In both
cases the settings view `showEffect` is not called, whether the effect is interactive
or not. -/
theorem repeatLastProcessor_not_interactive (c : Collab) (w : World) :
    (repeatLastProcessor c w).2.showEffectLog = w.showEffectLog ∧
    (match w.m_lastProcessorId with
     | none =>
       (repeatLastProcessor c w).1.code = Code.UnknownError ∧ (repeatLastProcessor c w).2 = w
     | some lastProcessorId =>
       repeatLastProcessor c w = performEffectWithShowError c w lastProcessorId kConfigured) := by
  unfold repeatLastProcessor
  cases hm : w.m_lastProcessorId with
  | none => exact ⟨rfl, rfl, rfl⟩
  | some lastProcessorId =>
    refine ⟨?_, rfl⟩
    simp only
    rw [performEffectWithShowError_showEffectLog]
    exact doPerformEffect_showEffectLog_of_configured c w lastProcessorId kConfigured
      (by decide)

/-! ### The effect object on the early returns -/

/-- State of the effect object after step 3: the flags of the invocation are in
`mUIFlags`, the track list is set, both frequency bounds are 0 and both control markers
have been appended. -/
theorem formAndSetup_effect (c : Collab) (w : World) (effectId : EffectId) (flags : Nat)
    (t0 t1 : secs_t) (isSelection : Bool) (settings : EffectSettings) :
    ((formAndSetup c w effectId flags t0 t1 isSelection settings).effects effectId).mUIFlags =
      flags ∧
    ((formAndSetup c w effectId flags t0 t1 isSelection settings).effects effectId).mTracks =
      true ∧
    ((formAndSetup c w effectId flags t0 t1 isSelection settings).effects effectId).mF0 = 0 ∧
    ((formAndSetup c w effectId flags t0 t1 isSelection settings).effects effectId).mF1 = 0 ∧
    ((formAndSetup c w effectId flags t0 t1 isSelection settings).effects effectId).mPresetNames =
      (w.effects effectId).mPresetNames ++ ["control-f0", "control-f1"] := by
  have hf : (formSettings c w effectId t0 t1 isSelection settings).1.f0 = 0 ∧
      (formSettings c w effectId t0 t1 isSelection settings).1.f1 = 0 := by
    unfold formSettings
    simp only
    split_ifs <;> exact ⟨rfl, rfl⟩
  have hu : (0 : ℚ) ≠ UNDEFINED_FREQUENCY := by
    unfold UNDEFINED_FREQUENCY
    norm_num
  unfold formAndSetup setupEffect
  simp only [hf.1, hf.2, if_pos hu]
  simp [setEffect]

/-- Claim C13, the code at the failing input: no processing instance can be made, so
the invocation fails in step 4 with `UnknownError`; the effect object had the UI flags 0
before the invocation with the flags `kConfigured`, and on return its UI flags are
`kConfigured`, its track list is still set and both control markers are still there. -/
theorem doPerformEffect_noInstance_flags_left :
    makeAndInitInstance noInstanceCollab
      (formAndSetup noInstanceCollab (sampleWorld [] [] 2 5) "amplify" kConfigured 2 5 true
        idleSettings) "amplify" = none ∧
    (doPerformEffect noInstanceCollab (sampleWorld [] [] 2 5) "amplify" kConfigured).1.code =
      Code.UnknownError ∧
    ((sampleWorld [] [] 2 5).effects "amplify").mUIFlags = 0 ∧
    ((doPerformEffect noInstanceCollab (sampleWorld [] [] 2 5) "amplify" kConfigured).2.effects
      "amplify").mUIFlags = 1 ∧
    ((doPerformEffect noInstanceCollab (sampleWorld [] [] 2 5) "amplify" kConfigured).2.effects
      "amplify").mTracks = true ∧
    ((doPerformEffect noInstanceCollab (sampleWorld [] [] 2 5) "amplify" kConfigured).2.effects
      "amplify").mPresetNames = ["control-f0", "control-f1"] := by
  refine ⟨by decide, by decide, by decide, by decide, by decide, by decide⟩

/-! ### A failed dispatch -/

theorem dispatch_failure_calls (c : Collab) (w : World) (effectId : EffectId) (n : Nat)
    (inst : Instance) (h : (dispatch c w effectId n inst).1.success = false) :
    ∃ calls : List DispatchCall,
      (dispatch c w effectId n inst).2.dispatchLog = w.dispatchLog ++ calls ∧
      (dispatch c w effectId n inst).1 = firstFailureOr Ret.ok calls := by
  unfold dispatch at h ⊢
  split_ifs at h ⊢
  · obtain ⟨calls, h1, _, h3⟩ :=
      eachSelectedClipLoop_calls c effectId inst w.selection.selectedClips Ret.ok w
    refine ⟨calls, h1, ?_⟩
    unfold performEffectOnEachSelectedClip
    simp only
    rw [h3]
    rfl
  · refine ⟨[{ effectId := effectId, t0 := (w.effects effectId).mT0,
               t1 := (w.effects effectId).mT1, selectedClips := w.selection.selectedClips,
               ret := (providerPerformEffect c w effectId inst).1 }], rfl, ?_⟩
    simp [firstFailureOr, h]

/-- Claim C14: when the dispatch of an invocation fails (the dispatcher has been called
and the result is not success), the cleanup has run on return: the track list of the
effect is cleared, its preset names are empty and its UI flags are those from before the
invocation; the data selection, the history and the repeat memory with its notifications
are as before; and the result is that of the first failing dispatch call. -/
theorem doPerformEffect_dispatch_failure (c : Collab) (w : World) (effectId : EffectId)
    (flags : Nat) (hFail : (doPerformEffect c w effectId flags).1.success = false)
    (hCalled : (doPerformEffect c w effectId flags).2.dispatchLog ≠ w.dispatchLog) :
    ((doPerformEffect c w effectId flags).2.effects effectId).mTracks = false ∧
    ((doPerformEffect c w effectId flags).2.effects effectId).mPresetNames = [] ∧
    ((doPerformEffect c w effectId flags).2.effects effectId).mUIFlags =
      (w.effects effectId).mUIFlags ∧
    (doPerformEffect c w effectId flags).2.selection.dataSelectedStartTime =
      w.selection.dataSelectedStartTime ∧
    (doPerformEffect c w effectId flags).2.selection.dataSelectedEndTime =
      w.selection.dataSelectedEndTime ∧
    (doPerformEffect c w effectId flags).2.history = w.history ∧
    (doPerformEffect c w effectId flags).2.m_lastProcessorId = w.m_lastProcessorId ∧
    (doPerformEffect c w effectId flags).2.m_lastProcessorIdChanged =
      w.m_lastProcessorIdChanged ∧
    (doPerformEffect c w effectId flags).2.m_lastProcessorIsAvailableChanged =
      w.m_lastProcessorIsAvailableChanged ∧
    ∃ calls : List DispatchCall,
      (doPerformEffect c w effectId flags).2.dispatchLog = w.dispatchLog ++ calls ∧
      (doPerformEffect c w effectId flags).1 = firstFailureOr Ret.ok calls := by
  have ho := doPerformEffect_outcome c w effectId flags
  generalize doPerformEffect c w effectId flags = res at ho hFail hCalled ⊢
  cases ho with
  | invalid r h1 => exact absurd rfl hCalled
  | noSettings t0 t1 isSelection h1 h2 => exact absurd rfl hCalled
  | noInstance t0 t1 isSelection settings h1 h2 h4 =>
    exact absurd (formAndSetup_frame c w effectId flags t0 t1 isSelection settings).2.2.1 hCalled
  | declined t0 t1 isSelection settings pInstanceEx rw h1 h2 h4 h5 =>
    exact absurd (((modifySettingsByUser_error_frame _ _ _ _ _ h5).2.1).trans
      (formAndSetup_frame c w effectId flags t0 t1 isSelection settings).2.2.1) hCalled
  | dispatched t0 t1 isSelection settings pInstanceEx w4 h1 h2 h4 h5 =>
    obtain ⟨f1, _, f3, f4⟩ := formAndSetup_frame c w effectId flags t0 t1 isSelection settings
    obtain ⟨g1, g2, g3, _⟩ := modifySettingsByUser_ok_frame _ _ _ _ _ h5
    rw [performAndRecord_success_iff] at hFail
    rw [performAndRecord_of_failure _ _ _ _ _ _ _ hFail]
    obtain ⟨calls, k1, k2⟩ := dispatch_failure_calls _ _ _ _ _ hFail
    obtain ⟨d1, _, d3, d4⟩ := dispatch_frame c { w4 with skipStateFlag := false } effectId
      w.selection.selectedClips.length pInstanceEx
    generalize dispatch c { w4 with skipStateFlag := false } effectId
      w.selection.selectedClips.length pInstanceEx = d at hFail k1 k2 d1 d3 d4 ⊢
    obtain ⟨c1, _, c3, _⟩ := cleanup_frame d.2 effectId (w.effects effectId).mUIFlags d.1
      w.selection.selectedClips.length
    have hsel := cleanup_selection_of_failure d.2 effectId (w.effects effectId).mUIFlags d.1
      w.selection.selectedClips.length hFail
    have hl : ledger (cleanup d.2 effectId (w.effects effectId).mUIFlags d.1
        w.selection.selectedClips.length) = ledger w :=
      c1.trans (d1.trans (g1.trans f1))
    have hw4 : w4.selection = w.selection := g3.trans f4
    simp only [cleanup_effects, hsel]
    refine ⟨trivial, trivial, trivial, ?_, ?_, congrArg Ledger.history hl,
      congrArg Ledger.m_lastProcessorId hl, congrArg Ledger.m_lastProcessorIdChanged hl,
      congrArg Ledger.m_lastProcessorIsAvailableChanged hl, calls, ?_, k2⟩
    · rw [d3, ← hw4]
    · rw [d4, ← hw4]
    · rw [c3, k1]
      simp only [List.append_cancel_right_eq]
      exact g2.trans f3

/-- Witness of C14: `amplify` on the data selection from 40 s to 45 s, where the
dispatch fails. -/
theorem doPerformEffect_dispatch_failure_witness :
    ((doPerformEffect (sampleCollab Ret.ok) (sampleWorld [] [] 40 45) "amplify" 0).1.success =
        false ∧
      (doPerformEffect (sampleCollab Ret.ok) (sampleWorld [] [] 40 45) "amplify" 0).2.dispatchLog ≠
        (sampleWorld [] [] 40 45).dispatchLog) ∧
    ((doPerformEffect (sampleCollab Ret.ok) (sampleWorld [] [] 40 45) "amplify" 0).2.effects
      "amplify").mUIFlags = ((sampleWorld [] [] 40 45).effects "amplify").mUIFlags ∧
    (doPerformEffect (sampleCollab Ret.ok) (sampleWorld [] [] 40 45) "amplify" 0).2.history =
      (sampleWorld [] [] 40 45).history :=
  ⟨⟨by decide!, by decide!⟩,
    ((doPerformEffect_dispatch_failure (sampleCollab Ret.ok) (sampleWorld [] [] 40 45) "amplify" 0
      (by decide!) (by decide!)).2.2.1),
    ((doPerformEffect_dispatch_failure (sampleCollab Ret.ok) (sampleWorld [] [] 40 45) "amplify" 0
      (by decide!) (by decide!)).2.2.2.2.2.1)⟩

/-! ### What the repeat memory holds -/

theorem or_kSkipState_and_kDontRepeatLast (flags : Nat) :
    (flags ||| kSkipState) &&& kDontRepeatLast = flags &&& kDontRepeatLast := by
  have h : kSkipState &&& kDontRepeatLast = 0 := by decide
  rw [Nat.and_distrib_right, h, Nat.or_zero]

theorem rememberLastProcessor_lastProcessorId (w : World) (effectId : EffectId) :
    (rememberLastProcessor w effectId).m_lastProcessorId = some effectId := by
  unfold rememberLastProcessor
  simp only
  split_ifs with h1 h2
  · rfl
  · rfl
  · simpa using h1

theorem writeHistory_lastProcessorId (c : Collab) (w : World) (effectId : EffectId)
    (flags : Nat) :
    (writeHistory c w effectId flags).m_lastProcessorId =
      (if flags &&& kDontRepeatLast = 0 ∧
          c.effectType effectId = EffectType.EffectTypeProcess then some effectId
       else w.m_lastProcessorId) := by
  unfold writeHistory
  simp only
  by_cases hr : flags &&& kDontRepeatLast = 0 ∧
      c.effectType effectId = EffectType.EffectTypeProcess
  · have hg : c.effectType effectId ≠ EffectType.EffectTypeGenerate := by
      rw [hr.2]
      decide
    rw [if_pos hr, if_neg hg]
    split_ifs <;>
      simp_all [or_kSkipState_and_kDontRepeatLast, rememberLastProcessor_lastProcessorId]
  · rw [if_neg hr]
    split_ifs <;>
      simp_all [or_kSkipState_and_kDontRepeatLast, rememberLastProcessor_lastProcessorId]

theorem performAndRecord_lastProcessorId (c : Collab) (w : World) (effectId : EffectId)
    (flags oldFlags n : Nat) (inst : Instance) :
    (performAndRecord c w effectId flags oldFlags n inst).2.m_lastProcessorId =
      (if (performAndRecord c w effectId flags oldFlags n inst).1.success = true ∧
          flags &&& kDontRepeatLast = 0 ∧
          c.effectType effectId = EffectType.EffectTypeProcess then some effectId
       else w.m_lastProcessorId) := by
  have hd0 := (dispatch_frame c w effectId n inst).1
  cases hd : (dispatch c w effectId n inst).1.success
  · rw [performAndRecord_of_failure _ _ _ _ _ _ _ hd]
    generalize dispatch c w effectId n inst = d at hd hd0 ⊢
    simp only [hd, Bool.false_eq_true, false_and, if_false]
    exact congrArg Ledger.m_lastProcessorId
      (((cleanup_frame d.2 effectId oldFlags d.1 n).1).trans hd0)
  · rw [performAndRecord_of_success _ _ _ _ _ _ _ hd]
    generalize dispatch c w effectId n inst = d at hd hd0 ⊢
    have hl : (cleanup d.2 effectId oldFlags d.1 n).m_lastProcessorId = w.m_lastProcessorId :=
      congrArg Ledger.m_lastProcessorId
        (((cleanup_frame d.2 effectId oldFlags d.1 n).1).trans hd0)
    have hok : Ret.ok.success = true := rfl
    simp only [writeHistory_lastProcessorId, hl, hok, true_and]

/-- Claim C15: after `doPerformEffect` the stored last-processor id is the invoked id
when the invocation succeeded, the flag `kDontRepeatLast` was not passed and the effect
is of type `EffectTypeProcess`; in every other case (another effect type such as a
generator, the flag passed, a failure or a cancellation) it is the id stored before. -/
theorem doPerformEffect_lastProcessorId (c : Collab) (w : World) (effectId : EffectId)
    (flags : Nat) :
    (doPerformEffect c w effectId flags).2.m_lastProcessorId =
      (if (doPerformEffect c w effectId flags).1.success = true ∧
          flags &&& kDontRepeatLast = 0 ∧
          c.effectType effectId = EffectType.EffectTypeProcess then some effectId
       else w.m_lastProcessorId) := by
  have ho := doPerformEffect_outcome c w effectId flags
  generalize doPerformEffect c w effectId flags = res at ho ⊢
  cases ho with
  | invalid r h1 =>
    simp [checkInputParams_error_success c w effectId r h1]
  | noSettings t0 t1 isSelection h1 h2 =>
    simp [make_ret_success]
  | noInstance t0 t1 isSelection settings h1 h2 h4 =>
    have hl := (formAndSetup_frame c w effectId flags t0 t1 isSelection settings).1
    simp only [make_ret_success c _ (show Code.UnknownError ≠ Code.Ok by decide),
      Bool.false_eq_true, false_and, if_false]
    exact congrArg Ledger.m_lastProcessorId hl
  | declined t0 t1 isSelection settings pInstanceEx rw h1 h2 h4 h5 =>
    have hl := ((modifySettingsByUser_error_frame _ _ _ _ _ h5).1).trans
      (formAndSetup_frame c w effectId flags t0 t1 isSelection settings).1
    simp only [modifySettingsByUser_error_success _ _ _ _ _ h5, Bool.false_eq_true, false_and,
      if_false]
    exact congrArg Ledger.m_lastProcessorId hl
  | dispatched t0 t1 isSelection settings pInstanceEx w4 h1 h2 h4 h5 =>
    have hl4 : w4.m_lastProcessorId = w.m_lastProcessorId := congrArg Ledger.m_lastProcessorId
      (((modifySettingsByUser_ok_frame _ _ _ _ _ h5).1).trans
        (formAndSetup_frame c w effectId flags t0 t1 isSelection settings).1)
    rw [performAndRecord_lastProcessorId]
    simp only [hl4]

/-! ### Generators without a selection, and the order of the window -/

theorem formSettings_of_no_selection (c : Collab) (w : World) (effectId : EffectId)
    (t0 t1 : secs_t) (isSelection : Bool) (settings : EffectSettings) (hSel : t1 ≤ t0) :
    (formSettings c w effectId t0 t1 isSelection settings).2.extra.duration =
      (if c.effectType effectId = EffectType.EffectTypeGenerate then
        (w.durationConfig effectId).getD (c.defaultDuration effectId)
       else 0) ∧
    (formSettings c w effectId t0 t1 isSelection settings).1.t0 = t0 ∧
    (formSettings c w effectId t0 t1 isSelection settings).1.t1 = t1 := by
  unfold formSettings
  simp only
  rw [if_neg (not_lt.mpr hSel)]
  exact ⟨rfl, rfl, rfl⟩

/-- Claim C16: for a generator and a window without a real selection (`t1 ≤ t0`), the
duration written into the settings is the duration persisted in the private
configuration of the effect, or its built-in default duration when none is persisted,
and the time window written to the effect object is the input window, not quantized. -/
theorem formSettings_generator_default (c : Collab) (w : World) (effectId : EffectId)
    (flags : Nat) (t0 t1 : secs_t) (isSelection : Bool) (settings : EffectSettings)
    (hGen : c.effectType effectId = EffectType.EffectTypeGenerate) (hSel : t1 ≤ t0) :
    (formSettings c w effectId t0 t1 isSelection settings).2.extra.duration =
      (match w.durationConfig effectId with
       | some persisted => persisted
       | none => c.defaultDuration effectId) ∧
    (formAndSetup c w effectId flags t0 t1 isSelection settings).defaultSettings effectId =
      some (formSettings c w effectId t0 t1 isSelection settings).2 ∧
    ((formAndSetup c w effectId flags t0 t1 isSelection settings).effects effectId).mT0 = t0 ∧
    ((formAndSetup c w effectId flags t0 t1 isSelection settings).effects effectId).mT1 = t1 := by
  obtain ⟨h1, h2, h3⟩ := formSettings_of_no_selection c w effectId t0 t1 isSelection settings hSel
  obtain ⟨g1, g2, g3⟩ := formAndSetup_window c w effectId flags t0 t1 isSelection settings
  refine ⟨?_, g3, g1.trans h2, g2.trans h3⟩
  rw [h1, if_pos hGen]
  cases w.durationConfig effectId <;> rfl

/-- Witness of C16: the generator `tone` with the empty data selection at 3 s and no
persisted duration gets its built-in default duration of 30 s. -/
theorem formSettings_generator_default_witness :
    ((sampleCollab Ret.ok).effectType "tone" = EffectType.EffectTypeGenerate ∧ (3 : ℚ) ≤ 3) ∧
    (formSettings (sampleCollab Ret.ok) (sampleWorld [] [] 3 3) "tone" 3 3 false
      idleSettings).2.extra.duration =
      (match (sampleWorld [] [] 3 3).durationConfig "tone" with
       | some persisted => persisted
       | none => (sampleCollab Ret.ok).defaultDuration "tone") ∧
    (formAndSetup (sampleCollab Ret.ok) (sampleWorld [] [] 3 3) "tone" 0 3 3 false
      idleSettings).defaultSettings "tone" =
      some (formSettings (sampleCollab Ret.ok) (sampleWorld [] [] 3 3) "tone" 3 3 false
        idleSettings).2 ∧
    ((formAndSetup (sampleCollab Ret.ok) (sampleWorld [] [] 3 3) "tone" 0 3 3 false
      idleSettings).effects "tone").mT0 = 3 ∧
    ((formAndSetup (sampleCollab Ret.ok) (sampleWorld [] [] 3 3) "tone" 0 3 3 false
      idleSettings).effects "tone").mT1 = 3 :=
  ⟨⟨by decide, by decide⟩,
    formSettings_generator_default (sampleCollab Ret.ok) (sampleWorld [] [] 3 3) "tone" 0 3 3
      false idleSettings (by decide) (by decide)⟩

/-- Claim C17, the code at the failing input: `reverb` is invoked on the data selection
from 2 s to 5 s and the user cancels the settings view, so the effect object is seen as
the Configure step left it. Both frequency bounds are 0 and not the undefined sentinel
-1, and both control markers are registered. -/
theorem doPerformEffect_frequency_markers :
    UNDEFINED_FREQUENCY = -1 ∧
    ((doPerformEffect (sampleCollab { code := Code.Cancel, text := "cancelled" })
      (sampleWorld [] [] 2 5) "reverb" 0).2.effects "reverb").mF0 = 0 ∧
    ((doPerformEffect (sampleCollab { code := Code.Cancel, text := "cancelled" })
      (sampleWorld [] [] 2 5) "reverb" 0).2.effects "reverb").mF1 = 0 ∧
    ((doPerformEffect (sampleCollab { code := Code.Cancel, text := "cancelled" })
      (sampleWorld [] [] 2 5) "reverb" 0).2.effects "reverb").mPresetNames =
      ["control-f0", "control-f1"] ∧
    ((formAndSetup (sampleCollab Ret.ok) (sampleWorld [] [] 2 5) "amplify" 0 2 5 true
      idleSettings).effects "amplify").mPresetNames = ["control-f0", "control-f1"] := by
  refine ⟨by decide, by decide, by decide, by decide, by decide⟩

theorem QUANTIZED_TIME_mono (t0 t1 rate : ℚ) (hRate : 0 < rate) (h : t0 ≤ t1) :
    QUANTIZED_TIME t0 rate ≤ QUANTIZED_TIME t1 rate := by
  unfold QUANTIZED_TIME
  have h1 : t0 * rate + 1 / 2 ≤ t1 * rate + 1 / 2 := by
    have := mul_le_mul_of_nonneg_right h (le_of_lt hRate)
    linarith
  have h2 : round (t0 * rate) ≤ round (t1 * rate) := by
    rw [round_eq, round_eq]
    exact Int.floor_le_floor h1
  have h3 : ((round (t0 * rate) : ℤ) : ℚ) ≤ ((round (t1 * rate) : ℤ) : ℚ) := by
    exact_mod_cast h2
  exact div_le_div_of_nonneg_right h3 (le_of_lt hRate)

/-- Claim C18, amended: for a project rate above zero, the time window written to the
effect object in the Configure step has start at most end exactly when the window read
in step 1 has `t0 ≤ t1`; in particular the quantization of a real selection never puts
the end before the start, and a window with `t1 < t0`, which passes the validation for a
generator, is written as it is. -/
theorem formAndSetup_window_ordered (c : Collab) (w : World) (effectId : EffectId)
    (flags : Nat) (t0 t1 : secs_t) (isSelection : Bool) (settings : EffectSettings)
    (hRate : 0 < w.projectRate) :
    (((formAndSetup c w effectId flags t0 t1 isSelection settings).effects effectId).mT0 ≤
      ((formAndSetup c w effectId flags t0 t1 isSelection settings).effects effectId).mT1) ↔
      t0 ≤ t1 := by
  obtain ⟨g1, g2, _⟩ := formAndSetup_window c w effectId flags t0 t1 isSelection settings
  rw [g1, g2]
  by_cases hSel : t0 < t1
  · obtain ⟨_, h2, h3⟩ := formSettings_of_selection c w effectId t0 t1 isSelection settings hSel
    rw [h2, h3]
    have hq := QUANTIZED_TIME_mono t0 t1 w.projectRate hRate (le_of_lt hSel)
    constructor
    · intro _
      exact le_of_lt hSel
    · intro _
      linarith
  · obtain ⟨_, h2, h3⟩ := formSettings_of_no_selection c w effectId t0 t1 isSelection settings
      (not_lt.mp hSel)
    rw [h2, h3]

/-- Witness of C18 amended: the data selection from 1/10 s to 3/10 s at 44100 Hz. -/
theorem formAndSetup_window_ordered_witness :
    0 < (sampleWorld [] [] (1 / 10) (3 / 10)).projectRate ∧
    ((((formAndSetup (sampleCollab Ret.ok) (sampleWorld [] [] (1 / 10) (3 / 10)) "amplify" 0
        (1 / 10) (3 / 10) true idleSettings).effects "amplify").mT0 ≤
      ((formAndSetup (sampleCollab Ret.ok) (sampleWorld [] [] (1 / 10) (3 / 10)) "amplify" 0
        (1 / 10) (3 / 10) true idleSettings).effects "amplify").mT1) ↔
      (1 : ℚ) / 10 ≤ 3 / 10) :=
  ⟨by decide,
    formAndSetup_window_ordered (sampleCollab Ret.ok) (sampleWorld [] [] (1 / 10) (3 / 10))
      "amplify" 0 (1 / 10) (3 / 10) true idleSettings (by decide)⟩

/-- Claim C18, counterexample: the generator `tone` is invoked at rate 44100 on the data
selection with start 5 s and end 3 s. The validation passes, and the window written to
the effect and handed to the dispatcher has start 5 and end 3. -/
theorem formAndSetup_window_ordered_counterexample :
    checkInputParams (sampleCollab Ret.ok) (sampleWorld [] [] 5 3) "tone" =
      Except.ok (5, 3, false) ∧
    0 < (sampleWorld [] [] 5 3).projectRate ∧
    ¬ (((formAndSetup (sampleCollab Ret.ok) (sampleWorld [] [] 5 3) "tone" 0 5 3 false
        idleSettings).effects "tone").mT0 ≤
      ((formAndSetup (sampleCollab Ret.ok) (sampleWorld [] [] 5 3) "tone" 0 5 3 false
        idleSettings).effects "tone").mT1) ∧
    (doPerformEffect (sampleCollab Ret.ok) (sampleWorld [] [] 5 3) "tone" 0).2.dispatchLog =
      [{ effectId := "tone", t0 := 5, t1 := 3, selectedClips := [], ret := Ret.ok }] := by
  refine ⟨by rfl, by decide, by decide, by decide⟩

/-! ### A batch in which every lookup fails -/

theorem eachSelectedClipLoop_all_skipped (c : Collab) (effectId : EffectId) (inst : Instance)
    (clips : List ClipKey) (h : ∀ clip ∈ clips, lookupClip c clip = none) :
    ∀ (success : Ret) (w : World),
      (eachSelectedClipLoop c effectId inst clips success w).1 = success ∧
      (eachSelectedClipLoop c effectId inst clips success w).2.dispatchLog = w.dispatchLog ∧
      (eachSelectedClipLoop c effectId inst clips success w).2.skipStateFlag =
        w.skipStateFlag := by
  induction clips with
  | nil =>
    intro success w
    exact ⟨rfl, rfl, rfl⟩
  | cons clip rest ih =>
    intro success w
    rw [eachSelectedClipLoop_cons_skip c effectId inst clip rest success w
      (h clip (List.mem_cons_self clip rest))]
    exact ih (fun k hk => h k (List.mem_cons_of_mem clip hk)) success
      (setSelectedTracks (setSelectedClips w [clip]) [clip.trackId])

theorem doPerformEffect_of_dispatched (c : Collab) (w : World) (effectId : EffectId)
    (flags : Nat) (t0 t1 : secs_t) (isSelection : Bool) (settings : EffectSettings)
    (pInstanceEx : Instance) (w4 : World)
    (h1 : checkInputParams c w effectId = Except.ok (t0, t1, isSelection))
    (h2 : w.defaultSettings effectId = some settings)
    (h4 : makeAndInitInstance c (formAndSetup c w effectId flags t0 t1 isSelection settings)
      effectId = some pInstanceEx)
    (h5 : modifySettingsByUser c (formAndSetup c w effectId flags t0 t1 isSelection settings)
      effectId flags = Except.ok w4) :
    doPerformEffect c w effectId flags =
      performAndRecord c { w4 with skipStateFlag := false } effectId flags
        (w.effects effectId).mUIFlags w.selection.selectedClips.length pInstanceEx := by
  unfold doPerformEffect
  simp only [h1, h2, h4, h5]

/-- Claim C19: when two or more clips are selected and the lookup of every one of them
fails, `performEffectOnEachSelectedClip` returns success without any call of the
dispatcher; an invocation of `doPerformEffect` that passes the steps 1 to 5 and has no
skip-history flag then returns success, makes no dispatcher call and pushes a history
entry. -/
theorem doPerformEffect_batch_all_skipped (c : Collab) (w : World) (effectId : EffectId)
    (flags : Nat) (t0 t1 : secs_t) (isSelection : Bool) (settings : EffectSettings)
    (pInstanceEx : Instance) (w4 : World)
    (hClips : 2 ≤ w.selection.selectedClips.length)
    (hLookup : ∀ clip ∈ w.selection.selectedClips, lookupClip c clip = none)
    (hSkip : flags &&& kSkipState = 0)
    (h1 : checkInputParams c w effectId = Except.ok (t0, t1, isSelection))
    (h2 : w.defaultSettings effectId = some settings)
    (h4 : makeAndInitInstance c (formAndSetup c w effectId flags t0 t1 isSelection settings)
      effectId = some pInstanceEx)
    (h5 : modifySettingsByUser c (formAndSetup c w effectId flags t0 t1 isSelection settings)
      effectId flags = Except.ok w4) :
    (performEffectOnEachSelectedClip c w effectId pInstanceEx).1 = Ret.ok ∧
    (performEffectOnEachSelectedClip c w effectId pInstanceEx).2.dispatchLog = w.dispatchLog ∧
    (doPerformEffect c w effectId flags).1 = Ret.ok ∧
    (doPerformEffect c w effectId flags).2.dispatchLog = w.dispatchLog ∧
    (doPerformEffect c w effectId flags).2.history =
      w.history ++ [("Applied effect: " ++ c.pluginName effectId, c.pluginName effectId)] := by
  obtain ⟨a1, a2, _⟩ :=
    eachSelectedClipLoop_all_skipped c effectId pInstanceEx w.selection.selectedClips hLookup
      Ret.ok w
  refine ⟨a1, a2, ?_⟩
  obtain ⟨f1, _, f3, f4⟩ := formAndSetup_frame c w effectId flags t0 t1 isSelection settings
  obtain ⟨g1, g2, g3, _⟩ := modifySettingsByUser_ok_frame _ _ _ _ _ h5
  rw [doPerformEffect_of_dispatched c w effectId flags t0 t1 isSelection settings pInstanceEx w4
    h1 h2 h4 h5]
  have hsel : w4.selection = w.selection := g3.trans f4
  have hn : w.selection.selectedClips.length > 1 := hClips
  have hd : dispatch c { w4 with skipStateFlag := false } effectId
      w.selection.selectedClips.length pInstanceEx =
      performEffectOnEachSelectedClip c { w4 with skipStateFlag := false } effectId
        pInstanceEx := by
    unfold dispatch
    rw [if_pos hn]
  have hLookup4 : ∀ clip ∈ w4.selection.selectedClips, lookupClip c clip = none := by
    rw [hsel]
    exact hLookup
  obtain ⟨b1, b2, b3⟩ :=
    eachSelectedClipLoop_all_skipped c effectId pInstanceEx w4.selection.selectedClips hLookup4
      Ret.ok { w4 with skipStateFlag := false }
  have hd1 : (dispatch c { w4 with skipStateFlag := false } effectId
      w.selection.selectedClips.length pInstanceEx).1 = Ret.ok := by
    rw [hd]
    exact b1
  have hd2 : (dispatch c { w4 with skipStateFlag := false } effectId
      w.selection.selectedClips.length pInstanceEx).2.dispatchLog = w.dispatchLog := by
    rw [hd]
    exact b2.trans (g2.trans f3)
  have hd3 : (dispatch c { w4 with skipStateFlag := false } effectId
      w.selection.selectedClips.length pInstanceEx).2.skipStateFlag = false := by
    rw [hd]
    exact b3
  have hd4 := (dispatch_frame c { w4 with skipStateFlag := false } effectId
      w.selection.selectedClips.length pInstanceEx).1
  have hs : (dispatch c { w4 with skipStateFlag := false } effectId
      w.selection.selectedClips.length pInstanceEx).1.success = true := by
    rw [hd1]
    rfl
  rw [performAndRecord_of_success _ _ _ _ _ _ _ hs]
  generalize dispatch c { w4 with skipStateFlag := false } effectId
      w.selection.selectedClips.length pInstanceEx = d at hd1 hd2 hd3 hd4 hs ⊢
  obtain ⟨c1, _, c3, c4⟩ := cleanup_frame d.2 effectId (w.effects effectId).mUIFlags d.1
    w.selection.selectedClips.length
  have hh : (cleanup d.2 effectId (w.effects effectId).mUIFlags d.1
      w.selection.selectedClips.length).history = w.history :=
    congrArg Ledger.history (c1.trans (hd4.trans (g1.trans f1)))
  refine ⟨rfl, ?_, ?_⟩
  · simp only
    rw [(writeHistory_frame _ _ _ _).2.1, c3, hd2]
  · simp only
    rw [writeHistory_history, if_pos ⟨hSkip, c4.trans hd3⟩, hh]
    rfl

/-- Witness of C19: two clips on track 9, which the DOM accessor does not find, and the
multi-clip effect `amplify`. -/
theorem doPerformEffect_batch_all_skipped_witness :
    (2 ≤ (sampleWorld [⟨9, 1⟩, ⟨9, 2⟩] [9] 0 0).selection.selectedClips.length ∧
      (∀ clip ∈ (sampleWorld [⟨9, 1⟩, ⟨9, 2⟩] [9] 0 0).selection.selectedClips,
        lookupClip batchCollab clip = none) ∧
      0 &&& kSkipState = 0) ∧
    (performEffectOnEachSelectedClip batchCollab (sampleWorld [⟨9, 1⟩, ⟨9, 2⟩] [9] 0 0) "amplify"
      { handle := 0 }).1 = Ret.ok ∧
    (performEffectOnEachSelectedClip batchCollab (sampleWorld [⟨9, 1⟩, ⟨9, 2⟩] [9] 0 0) "amplify"
      { handle := 0 }).2.dispatchLog = (sampleWorld [⟨9, 1⟩, ⟨9, 2⟩] [9] 0 0).dispatchLog ∧
    (doPerformEffect batchCollab (sampleWorld [⟨9, 1⟩, ⟨9, 2⟩] [9] 0 0) "amplify" 0).1 = Ret.ok ∧
    (doPerformEffect batchCollab (sampleWorld [⟨9, 1⟩, ⟨9, 2⟩] [9] 0 0) "amplify"
      0).2.dispatchLog = (sampleWorld [⟨9, 1⟩, ⟨9, 2⟩] [9] 0 0).dispatchLog ∧
    (doPerformEffect batchCollab (sampleWorld [⟨9, 1⟩, ⟨9, 2⟩] [9] 0 0) "amplify" 0).2.history =
      (sampleWorld [⟨9, 1⟩, ⟨9, 2⟩] [9] 0 0).history ++
        [("Applied effect: " ++ batchCollab.pluginName "amplify",
          batchCollab.pluginName "amplify")] :=
  ⟨⟨by decide, by decide, by decide⟩,
    doPerformEffect_batch_all_skipped batchCollab (sampleWorld [⟨9, 1⟩, ⟨9, 2⟩] [9] 0 0)
      "amplify" 0 0 10 true idleSettings { handle := 0 }
      (formAndSetup batchCollab (sampleWorld [⟨9, 1⟩, ⟨9, 2⟩] [9] 0 0) "amplify" 0 0 10 true
        idleSettings)
      (by decide) (by decide) (by decide) (by rfl) (by rfl) (by rfl) (by rfl)⟩

/-! ### The rounding to double -/

theorem pow2_eq_zpow (e : ℤ) : pow2 e = (2 : ℚ) ^ e := by
  unfold pow2
  split_ifs with h
  · push_cast
    rw [← zpow_natCast, Int.toNat_of_nonneg h]
  · push_cast
    have h' : 0 ≤ -e := by omega
    rw [← zpow_natCast, Int.toNat_of_nonneg h', zpow_neg, one_div, inv_inv]

theorem log2Fuel_spec (fuel : ℕ) : ∀ n : ℕ, 1 ≤ n → n < 2 ^ fuel →
    2 ^ log2Fuel fuel n ≤ n ∧ n < 2 ^ (log2Fuel fuel n + 1) := by
  induction fuel with
  | zero =>
    intro n h1 h2
    simp at h2
    omega
  | succ fuel ih =>
    intro n h1 h2
    unfold log2Fuel
    split_ifs with h
    · constructor
      · simpa using h1
      · simpa using h
    · have hn : 2 ≤ n := by omega
      have h3 : 1 ≤ n / 2 := by omega
      have h4 : n / 2 < 2 ^ fuel := by
        rw [pow_succ] at h2
        omega
      obtain ⟨i1, i2⟩ := ih (n / 2) h3 h4
      rw [pow_succ, pow_succ]
      rw [pow_succ] at i2
      constructor
      · omega
      · omega

theorem log2Fuel_self (n : ℕ) (h : 1 ≤ n) :
    2 ^ log2Fuel n n ≤ n ∧ n < 2 ^ (log2Fuel n n + 1) :=
  log2Fuel_spec n n h (Nat.lt_two_pow n)

theorem ilog2_spec (x : ℚ) (hx : 0 < x) :
    (2 : ℚ) ^ ilog2 x ≤ x ∧ x < (2 : ℚ) ^ (ilog2 x + 1) := by
  have hnum : 0 < x.num := Rat.num_pos.mpr hx
  have hn1 : 1 ≤ x.num.natAbs := by omega
  have hd1 : 1 ≤ x.den := x.den_pos
  obtain ⟨a1, a2⟩ := log2Fuel_self x.num.natAbs hn1
  obtain ⟨b1, b2⟩ := log2Fuel_self x.den hd1
  have h2 : (x.num.natAbs : ℚ) = (x.num : ℚ) := by
    rw [← Int.cast_natCast, Int.natAbs_of_nonneg (le_of_lt hnum)]
  have hxe : x = (x.num.natAbs : ℚ) / (x.den : ℚ) := by
    rw [h2]
    exact (Rat.num_div_den x).symm
  have hd0 : (0 : ℚ) < (x.den : ℚ) := by exact_mod_cast hd1
  have A1 : (2 : ℚ) ^ (log2Fuel x.num.natAbs x.num.natAbs : ℤ) ≤ (x.num.natAbs : ℚ) := by
    rw [zpow_natCast]
    exact_mod_cast a1
  have A2 : (x.num.natAbs : ℚ) < (2 : ℚ) ^ ((log2Fuel x.num.natAbs x.num.natAbs : ℤ) + 1) := by
    have : ((log2Fuel x.num.natAbs x.num.natAbs : ℤ) + 1) =
        ((log2Fuel x.num.natAbs x.num.natAbs + 1 : ℕ) : ℤ) := by push_cast; ring
    rw [this, zpow_natCast]
    exact_mod_cast a2
  have B1 : (2 : ℚ) ^ (log2Fuel x.den x.den : ℤ) ≤ (x.den : ℚ) := by
    rw [zpow_natCast]
    exact_mod_cast b1
  have B2 : (x.den : ℚ) < (2 : ℚ) ^ ((log2Fuel x.den x.den : ℤ) + 1) := by
    have : ((log2Fuel x.den x.den : ℤ) + 1) = ((log2Fuel x.den x.den + 1 : ℕ) : ℤ) := by
      push_cast; ring
    rw [this, zpow_natCast]
    exact_mod_cast b2
  have two_pos : (0 : ℚ) < 2 := by norm_num
  have two_ne : (2 : ℚ) ≠ 0 := by norm_num
  unfold ilog2
  simp only [pow2_eq_zpow]
  generalize (log2Fuel x.num.natAbs x.num.natAbs : ℤ) = a at A1 A2 ⊢
  generalize (log2Fuel x.den x.den : ℤ) = b at B1 B2 ⊢
  generalize (x.num.natAbs : ℚ) = n at A1 A2 hxe
  generalize (x.den : ℚ) = d at B1 B2 hxe hd0
  have hpa : (0 : ℚ) < 2 ^ a := zpow_pos two_pos a
  have hpb : (0 : ℚ) < 2 ^ b := zpow_pos two_pos b
  split_ifs with h
  · refine ⟨h, ?_⟩
    have e1 : (2 : ℚ) ^ (a - b + 1) = 2 ^ (a + 1) / 2 ^ b := by
      rw [← zpow_sub₀ two_ne]
      congr 1
      ring
    rw [e1, hxe, div_lt_div_iff₀ hd0 hpb]
    calc n * 2 ^ b < 2 ^ (a + 1) * 2 ^ b := by
          exact mul_lt_mul_of_pos_right A2 hpb
      _ ≤ 2 ^ (a + 1) * d := by
          exact mul_le_mul_of_nonneg_left B1 (le_of_lt (zpow_pos two_pos _))
  · have h' : x < 2 ^ (a - b) := not_le.mp h
    have e0 : a - b - 1 + 1 = a - b := by ring
    rw [e0]
    refine ⟨?_, h'⟩
    have e1 : (2 : ℚ) ^ (a - b - 1) = 2 ^ a / 2 ^ (b + 1) := by
      rw [← zpow_sub₀ two_ne]
      congr 1
      ring
    rw [e1, hxe, div_le_div_iff₀ (zpow_pos two_pos _) hd0]
    calc 2 ^ a * d ≤ n * d := by
          exact mul_le_mul_of_nonneg_right A1 (le_of_lt hd0)
      _ ≤ n * 2 ^ (b + 1) := by
          have hn0 : (0 : ℚ) ≤ n := le_trans (le_of_lt hpa) A1
          exact mul_le_mul_of_nonneg_left (le_of_lt B2) hn0

theorem roundHalfEven_error (s : ℚ) : |(roundHalfEven s : ℚ) - s| ≤ 1 / 2 := by
  have h1 := Int.floor_le s
  have h2 := Int.lt_floor_add_one s
  unfold roundHalfEven
  simp only
  rw [abs_le]
  split_ifs with c1 c2 c3
  · constructor <;> linarith
  · push_cast
    constructor <;> linarith
  · have : s - ⌊s⌋ = 1 / 2 := le_antisymm (not_lt.mp c2) (not_lt.mp c1)
    constructor <;> linarith
  · have : s - ⌊s⌋ = 1 / 2 := le_antisymm (not_lt.mp c2) (not_lt.mp c1)
    push_cast
    constructor <;> linarith

/-- In the normal range, that is from `2 ^ -1022` on, the rounding to double has a relative
error of at most `2 ^ -53`. -/
theorem roundToDouble_roundsWithin (x : ℚ) (hx : (2 : ℚ) ^ (-1022 : ℤ) ≤ |x|) :
    RoundsWithin roundToDouble (1 / 2 ^ 53) x := by
  have two_pos : (0 : ℚ) < 2 := by norm_num
  have two_ne : (2 : ℚ) ≠ 0 := by norm_num
  have hpos : 0 < |x| := lt_of_lt_of_le (zpow_pos two_pos _) hx
  have hx0 : x ≠ 0 := abs_pos.mp hpos
  obtain ⟨l1, l2⟩ := ilog2_spec |x| hpos
  have hL : (-1022 : ℤ) ≤ ilog2 |x| := by
    have h3 : (2 : ℚ) ^ (-1022 : ℤ) < 2 ^ (ilog2 |x| + 1) := lt_of_le_of_lt hx l2
    have h4 := (zpow_lt_zpow_iff_right₀ (by norm_num : (1 : ℚ) < 2)).mp h3
    omega
  unfold RoundsWithin roundToDouble
  rw [if_neg hx0]
  simp only [pow2_eq_zpow]
  have he : max (ilog2 |x| - 52) (-1074) = ilog2 |x| - 52 := by
    apply max_eq_left
    omega
  rw [he]
  generalize ilog2 |x| = L at l1 l2 hL he
  have hp : (0 : ℚ) < 2 ^ (L - 52) := zpow_pos two_pos _
  have herr := roundHalfEven_error (x / 2 ^ (L - 52))
  have key : (roundHalfEven (x / 2 ^ (L - 52)) : ℚ) * 2 ^ (L - 52) - x =
      ((roundHalfEven (x / 2 ^ (L - 52)) : ℚ) - x / 2 ^ (L - 52)) * 2 ^ (L - 52) := by
    field_simp
  rw [key, abs_mul, abs_of_pos hp]
  have e1 : (2 : ℚ) ^ (L - 52) = 2 ^ L / 2 ^ (52 : ℤ) := by
    rw [← zpow_sub₀ two_ne]
  calc |(roundHalfEven (x / 2 ^ (L - 52)) : ℚ) - x / 2 ^ (L - 52)| * 2 ^ (L - 52)
      ≤ 1 / 2 * 2 ^ (L - 52) := mul_le_mul_of_nonneg_right herr (le_of_lt hp)
    _ = 1 / 2 ^ 53 * 2 ^ L := by
        rw [e1]
        norm_num
        ring
    _ ≤ 1 / 2 ^ 53 * |x| := mul_le_mul_of_nonneg_left l1 (by positivity)

theorem roundHalfEven_intCast (k : ℤ) : roundHalfEven (k : ℚ) = k := by
  unfold roundHalfEven
  simp

/-- Every value with a significand of at most 53 bits and an exponent of at least -1074
is left as it is by the rounding to double. -/
theorem roundToDouble_of_significand (m e : ℤ) (hm : |m| < 2 ^ 53) (he : -1074 ≤ e) :
    roundToDouble ((m : ℚ) * 2 ^ e) = (m : ℚ) * 2 ^ e := by
  have two_pos : (0 : ℚ) < 2 := by norm_num
  have two_ne : (2 : ℚ) ≠ 0 := by norm_num
  by_cases hx0 : (m : ℚ) * 2 ^ e = 0
  · unfold roundToDouble
    rw [if_pos hx0, hx0]
  · have hpos : 0 < |(m : ℚ) * 2 ^ e| := abs_pos.mpr hx0
    obtain ⟨l1, _⟩ := ilog2_spec |(m : ℚ) * 2 ^ e| hpos
    have habs : |(m : ℚ) * 2 ^ e| < 2 ^ (53 + e) := by
      rw [abs_mul, abs_of_pos (zpow_pos two_pos e), zpow_add₀ two_ne]
      have hm' : |(m : ℚ)| < 2 ^ (53 : ℤ) := by
        have h53 : ((|m| : ℤ) : ℚ) < ((2 ^ 53 : ℤ) : ℚ) := by exact_mod_cast hm
        rw [Int.cast_abs] at h53
        rw [zpow_ofNat]
        exact_mod_cast h53
      exact mul_lt_mul_of_pos_right hm' (zpow_pos two_pos e)
    have hL : ilog2 |(m : ℚ) * 2 ^ e| < 53 + e :=
      (zpow_lt_zpow_iff_right₀ (by norm_num : (1 : ℚ) < 2)).mp (lt_of_le_of_lt l1 habs)
    unfold roundToDouble
    rw [if_neg hx0]
    simp only [pow2_eq_zpow]
    generalize ilog2 |(m : ℚ) * 2 ^ e| = L at hL
    have hE : max (L - 52) (-1074) ≤ e := max_le (by omega) he
    generalize max (L - 52) (-1074) = E at hE
    obtain ⟨k, hk⟩ : ∃ k : ℕ, e - E = (k : ℤ) := ⟨(e - E).toNat, by omega⟩
    have hq : (m : ℚ) * 2 ^ e / 2 ^ E = ((m * 2 ^ k : ℤ) : ℚ) := by
      rw [mul_div_assoc, ← zpow_sub₀ two_ne, hk, zpow_natCast]
      push_cast
      ring
    rw [hq, roundHalfEven_intCast]
    push_cast
    rw [← zpow_natCast, ← hk, mul_assoc, ← zpow_add₀ two_ne]
    congr 2
    ring

/-! ### The quantized window in double arithmetic -/

/-- With no rounding at all, the double-arithmetic builder is `formSettings`. -/
theorem formSettingsRounded_exact (c : Collab) (w : World) (effectId : EffectId)
    (t0 t1 : secs_t) (isSelection : Bool) (settings : EffectSettings) :
    formSettingsRounded (fun x => x) c w effectId t0 t1 isSelection settings =
      formSettings c w effectId t0 t1 isSelection settings := by
  rfl

theorem formSettingsRounded_of_selection (fl : ℚ → ℚ) (c : Collab) (w : World)
    (effectId : EffectId) (t0 t1 : secs_t) (isSelection : Bool) (settings : EffectSettings)
    (hSel : t0 < t1) :
    (formSettingsRounded fl c w effectId t0 t1 isSelection settings).2.extra.duration =
      fl (QUANTIZED_TIME_rounded fl t1 w.projectRate -
        QUANTIZED_TIME_rounded fl t0 w.projectRate) ∧
    (formSettingsRounded fl c w effectId t0 t1 isSelection settings).1.t0 = t0 ∧
    (formSettingsRounded fl c w effectId t0 t1 isSelection settings).1.t1 =
      fl (t0 + fl (QUANTIZED_TIME_rounded fl t1 w.projectRate -
        QUANTIZED_TIME_rounded fl t0 w.projectRate)) := by
  unfold formSettingsRounded
  simp only
  rw [if_pos hSel]
  exact ⟨rfl, rfl, rfl⟩

/-- Claim C8, counterexample: at 44100 Hz, for the window whose ends are the doubles
nearest to 2/44100 s and 5/44100 s, the builder in double arithmetic puts the end one
unit in the last place above the double nearest to 5/44100, and the length of the
window times the rate is not an integer; computed in double arithmetic it is
3.0000000000000004. -/
theorem formSettingsRounded_samples_counterexample :
    sample2 < sample5 ∧ 0 < samplesWorld.projectRate ∧
    (formSettingsRounded roundToDouble (sampleCollab Ret.ok) samplesWorld "amplify" sample2
      sample5 true idleSettings).1.t0 = 6692696262570359 / 147573952589676412928 ∧
    (formSettingsRounded roundToDouble (sampleCollab Ret.ok) samplesWorld "amplify" sample2
      sample5 true idleSettings).1.t1 = 4182935164106475 / 36893488147419103232 ∧
    sample5 = 8365870328212949 / 73786976294838206464 ∧
    roundToDouble (roundToDouble (4182935164106475 / 36893488147419103232 -
      6692696262570359 / 147573952589676412928) * 44100) = 3 + 1 / 2 ^ 51 ∧
    ¬ ∃ n : ℤ,
      ((formSettingsRounded roundToDouble (sampleCollab Ret.ok) samplesWorld "amplify" sample2
        sample5 true idleSettings).1.t1 -
      (formSettingsRounded roundToDouble (sampleCollab Ret.ok) samplesWorld "amplify" sample2
        sample5 true idleSettings).1.t0) * samplesWorld.projectRate = (n : ℚ) := by
  have h0 : (formSettingsRounded roundToDouble (sampleCollab Ret.ok) samplesWorld "amplify"
      sample2 sample5 true idleSettings).1.t0 =
      6692696262570359 / 147573952589676412928 := by decide!
  have h1 : (formSettingsRounded roundToDouble (sampleCollab Ret.ok) samplesWorld "amplify"
      sample2 sample5 true idleSettings).1.t1 =
      4182935164106475 / 36893488147419103232 := by decide!
  have hr : samplesWorld.projectRate = 44100 := rfl
  refine ⟨by decide!, by decide!, h0, h1, by decide!, by decide!, ?_⟩
  rintro ⟨n, hn⟩
  rw [h0, h1, hr] at hn
  have hd := congrArg Rat.den hn
  rw [Rat.intCast_den] at hd
  revert hd
  decide!

/-- Claim C8, amended: for a real selection `t0 < t1` and a project rate above zero, the
builder in double arithmetic sets the duration to the rounded difference of the two
quantized ends, keeps the start and sets the end to the rounded sum of start and
duration. The length of the window in samples is an integer up to the rounding of these
operations: when the two divisions, the subtraction and the addition are each rounded
with a relative error of at most `u`, `(end - start) * rate` differs from the integer
`round (t1 * rate) - round (t0 * rate)` by at most `u * rate` times the sum of the
magnitudes of the four exact results; with `u = 0` it is that integer. -/
theorem formSettingsRounded_samples (fl : ℚ → ℚ) (u : ℚ) (c : Collab) (w : World)
    (effectId : EffectId) (t0 t1 : secs_t) (isSelection : Bool) (settings : EffectSettings)
    (hSel : t0 < t1) (hRate : 0 < w.projectRate)
    (hq0 : RoundsWithin fl u ((quantizedSample fl t0 w.projectRate : ℚ) / w.projectRate))
    (hq1 : RoundsWithin fl u ((quantizedSample fl t1 w.projectRate : ℚ) / w.projectRate))
    (hd : RoundsWithin fl u (QUANTIZED_TIME_rounded fl t1 w.projectRate -
      QUANTIZED_TIME_rounded fl t0 w.projectRate))
    (he : RoundsWithin fl u (t0 + fl (QUANTIZED_TIME_rounded fl t1 w.projectRate -
      QUANTIZED_TIME_rounded fl t0 w.projectRate))) :
    (formSettingsRounded fl c w effectId t0 t1 isSelection settings).2.extra.duration =
      fl (QUANTIZED_TIME_rounded fl t1 w.projectRate -
        QUANTIZED_TIME_rounded fl t0 w.projectRate) ∧
    (formSettingsRounded fl c w effectId t0 t1 isSelection settings).1.t0 = t0 ∧
    (formSettingsRounded fl c w effectId t0 t1 isSelection settings).1.t1 =
      fl ((formSettingsRounded fl c w effectId t0 t1 isSelection settings).1.t0 +
        (formSettingsRounded fl c w effectId t0 t1 isSelection settings).2.extra.duration) ∧
    |((formSettingsRounded fl c w effectId t0 t1 isSelection settings).1.t1 -
        (formSettingsRounded fl c w effectId t0 t1 isSelection settings).1.t0) * w.projectRate -
        (((quantizedSample fl t1 w.projectRate - quantizedSample fl t0 w.projectRate : ℤ)) : ℚ)| ≤
      u * w.projectRate *
        (|(quantizedSample fl t0 w.projectRate : ℚ) / w.projectRate| +
          |(quantizedSample fl t1 w.projectRate : ℚ) / w.projectRate| +
          |QUANTIZED_TIME_rounded fl t1 w.projectRate -
            QUANTIZED_TIME_rounded fl t0 w.projectRate| +
          |t0 + (formSettingsRounded fl c w effectId t0 t1 isSelection
            settings).2.extra.duration|) := by
  obtain ⟨g1, g2, g3⟩ :=
    formSettingsRounded_of_selection fl c w effectId t0 t1 isSelection settings hSel
  refine ⟨g1, g2, by rw [g3, g2, g1], ?_⟩
  rw [g3, g2, g1]
  have hne : w.projectRate ≠ 0 := ne_of_gt hRate
  unfold RoundsWithin at hq0 hq1 hd he
  have e0 : QUANTIZED_TIME_rounded fl t0 w.projectRate =
      fl ((quantizedSample fl t0 w.projectRate : ℚ) / w.projectRate) := rfl
  have e1 : QUANTIZED_TIME_rounded fl t1 w.projectRate =
      fl ((quantizedSample fl t1 w.projectRate : ℚ) / w.projectRate) := rfl
  generalize QUANTIZED_TIME_rounded fl t0 w.projectRate = q0 at hd he e0 ⊢
  generalize QUANTIZED_TIME_rounded fl t1 w.projectRate = q1 at hd he e1 ⊢
  rw [← e0] at hq0
  rw [← e1] at hq1
  generalize (quantizedSample fl t0 w.projectRate : ℤ) = n0 at hq0 ⊢
  generalize (quantizedSample fl t1 w.projectRate : ℤ) = n1 at hq1 ⊢
  generalize fl (q1 - q0) = d at hd he ⊢
  generalize fl (t0 + d) = e at he ⊢
  generalize w.projectRate = r at hRate hne hq0 hq1 ⊢
  have key : (e - t0) * r - ((n1 - n0 : ℤ) : ℚ) =
      r * ((e - (t0 + d)) + (d - (q1 - q0)) + (q1 - (n1 : ℚ) / r) - (q0 - (n0 : ℚ) / r)) := by
    push_cast
    field_simp
    ring
  rw [key, abs_mul, abs_of_pos hRate]
  have b0 := abs_le.mp hq0
  have b1 := abs_le.mp hq1
  have bd := abs_le.mp hd
  have be := abs_le.mp he
  have hsum : |(e - (t0 + d)) + (d - (q1 - q0)) + (q1 - (n1 : ℚ) / r) - (q0 - (n0 : ℚ) / r)| ≤
      u * |(n0 : ℚ) / r| + u * |(n1 : ℚ) / r| + u * |q1 - q0| + u * |t0 + d| := by
    rw [abs_le]
    constructor
    · linarith [b0.1, b0.2, b1.1, b1.2, bd.1, bd.2, be.1, be.2]
    · linarith [b0.1, b0.2, b1.1, b1.2, bd.1, bd.2, be.1, be.2]
  calc r * |(e - (t0 + d)) + (d - (q1 - q0)) + (q1 - (n1 : ℚ) / r) - (q0 - (n0 : ℚ) / r)|
      ≤ r * (u * |(n0 : ℚ) / r| + u * |(n1 : ℚ) / r| + u * |q1 - q0| + u * |t0 + d|) :=
        mul_le_mul_of_nonneg_left hsum (le_of_lt hRate)
    _ = u * r * (|(n0 : ℚ) / r| + |(n1 : ℚ) / r| + |q1 - q0| + |t0 + d|) := by ring

/-- Witness of C8 amended: the window of the counterexample in IEEE double arithmetic,
where every operation is rounded with a relative error of at most `2 ^ -53`. -/
theorem formSettingsRounded_samples_witness :
    (sample2 < sample5 ∧ 0 < samplesWorld.projectRate ∧
      RoundsWithin roundToDouble (1 / 2 ^ 53)
        ((quantizedSample roundToDouble sample2 samplesWorld.projectRate : ℚ) /
          samplesWorld.projectRate) ∧
      RoundsWithin roundToDouble (1 / 2 ^ 53)
        ((quantizedSample roundToDouble sample5 samplesWorld.projectRate : ℚ) /
          samplesWorld.projectRate) ∧
      RoundsWithin roundToDouble (1 / 2 ^ 53)
        (QUANTIZED_TIME_rounded roundToDouble sample5 samplesWorld.projectRate -
          QUANTIZED_TIME_rounded roundToDouble sample2 samplesWorld.projectRate) ∧
      RoundsWithin roundToDouble (1 / 2 ^ 53)
        (sample2 +
          roundToDouble (QUANTIZED_TIME_rounded roundToDouble sample5 samplesWorld.projectRate -
            QUANTIZED_TIME_rounded roundToDouble sample2 samplesWorld.projectRate))) ∧
    |((formSettingsRounded roundToDouble (sampleCollab Ret.ok) samplesWorld "amplify" sample2
          sample5 true idleSettings).1.t1 -
        (formSettingsRounded roundToDouble (sampleCollab Ret.ok) samplesWorld "amplify" sample2
          sample5 true idleSettings).1.t0) * samplesWorld.projectRate -
        (((quantizedSample roundToDouble sample5 samplesWorld.projectRate -
          quantizedSample roundToDouble sample2 samplesWorld.projectRate : ℤ)) : ℚ)| ≤
      1 / 2 ^ 53 * samplesWorld.projectRate *
        (|(quantizedSample roundToDouble sample2 samplesWorld.projectRate : ℚ) /
            samplesWorld.projectRate| +
          |(quantizedSample roundToDouble sample5 samplesWorld.projectRate : ℚ) /
            samplesWorld.projectRate| +
          |QUANTIZED_TIME_rounded roundToDouble sample5 samplesWorld.projectRate -
            QUANTIZED_TIME_rounded roundToDouble sample2 samplesWorld.projectRate| +
          |sample2 + (formSettingsRounded roundToDouble (sampleCollab Ret.ok) samplesWorld
            "amplify" sample2 sample5 true idleSettings).2.extra.duration|) :=
  ⟨⟨by decide!, by decide!, by decide!, by decide!, by decide!, by decide!⟩,
    (formSettingsRounded_samples roundToDouble (1 / 2 ^ 53) (sampleCollab Ret.ok) samplesWorld
      "amplify" sample2 sample5 true idleSettings
      (by decide!) (by decide!) (by decide!) (by decide!) (by decide!) (by decide!)).2.2.2⟩

/-- Claim C9, counterexample: at the rate `2 ^ 30` Hz the doubles `2 ^ -29` and
`2 ^ 24 + 2 ^ -28` are exact multiples of `1 / rate` and each is its own quantization,
but their difference is not a double: the builder in double arithmetic sets the
duration to `2 ^ 24`, which is not `t1 - t0`, and the end to `2 ^ 24`, which is not
`t1`. Likewise at 44100 Hz the doubles nearest to the times of the samples 244275 and
1035054 are each their own quantization, and the builder moves the end off the
second. -/
theorem formSettingsRounded_aligned_counterexample :
    (1 : ℚ) / 2 ^ 29 < 2 ^ 24 + 1 / 2 ^ 28 ∧ 0 < alignedWorld.projectRate ∧
    (1 : ℚ) / 2 ^ 29 = ((2 : ℤ) : ℚ) * (1 / alignedWorld.projectRate) ∧
    (2 : ℚ) ^ 24 + 1 / 2 ^ 28 =
      ((18014398509481988 : ℤ) : ℚ) * (1 / alignedWorld.projectRate) ∧
    roundToDouble (1 / 2 ^ 29) = 1 / 2 ^ 29 ∧
    roundToDouble (2 ^ 24 + 1 / 2 ^ 28) = 2 ^ 24 + 1 / 2 ^ 28 ∧
    QUANTIZED_TIME_rounded roundToDouble (1 / 2 ^ 29) alignedWorld.projectRate = 1 / 2 ^ 29 ∧
    QUANTIZED_TIME_rounded roundToDouble (2 ^ 24 + 1 / 2 ^ 28) alignedWorld.projectRate =
      2 ^ 24 + 1 / 2 ^ 28 ∧
    (formSettingsRounded roundToDouble (sampleCollab Ret.ok) alignedWorld "amplify"
      (1 / 2 ^ 29) (2 ^ 24 + 1 / 2 ^ 28) true idleSettings).1.t1 = 2 ^ 24 ∧
    (formSettingsRounded roundToDouble (sampleCollab Ret.ok) alignedWorld "amplify"
      (1 / 2 ^ 29) (2 ^ 24 + 1 / 2 ^ 28) true idleSettings).1.t1 ≠ 2 ^ 24 + 1 / 2 ^ 28 ∧
    (formSettingsRounded roundToDouble (sampleCollab Ret.ok) alignedWorld "amplify"
      (1 / 2 ^ 29) (2 ^ 24 + 1 / 2 ^ 28) true idleSettings).2.extra.duration ≠
      2 ^ 24 + 1 / 2 ^ 28 - 1 / 2 ^ 29 ∧
    sampleA < sampleB ∧
    QUANTIZED_TIME_rounded roundToDouble sampleA 44100 = sampleA ∧
    QUANTIZED_TIME_rounded roundToDouble sampleB 44100 = sampleB ∧
    (formSettingsRounded roundToDouble (sampleCollab Ret.ok) (rateWorld 44100 sampleA sampleB)
      "amplify" sampleA sampleB true idleSettings).1.t1 ≠ sampleB := by
  refine ⟨by decide!, by decide!, by decide!, by decide!, by decide!, by decide!, by decide!,
    by decide!, by decide!, by decide!, by decide!, by decide!, by decide!, by decide!,
    by decide!⟩

/-- Claim C9, amended: for a project rate above zero and a real selection `t0 < t1` of
two doubles that are exact multiples of `1 / rate`, when the two products `t * rate` are
computed exactly and the difference `t1 - t0` is itself a double, the builder in double
arithmetic leaves start and end of the window as they are and sets the duration to
`t1 - t0`. Here `fl x = x` says that the exact result `x` is a double. -/
theorem formSettingsRounded_aligned (fl : ℚ → ℚ) (c : Collab) (w : World)
    (effectId : EffectId) (t0 t1 : secs_t) (isSelection : Bool) (settings : EffectSettings)
    (a b : ℤ) (hSel : t0 < t1) (hRate : 0 < w.projectRate)
    (h0 : t0 = (a : ℚ) * (1 / w.projectRate)) (h1 : t1 = (b : ℚ) * (1 / w.projectRate))
    (hp0 : fl (t0 * w.projectRate) = t0 * w.projectRate)
    (hp1 : fl (t1 * w.projectRate) = t1 * w.projectRate)
    (hd0 : fl t0 = t0) (hd1 : fl t1 = t1) (hd : fl (t1 - t0) = t1 - t0) :
    (formSettingsRounded fl c w effectId t0 t1 isSelection settings).1.t0 = t0 ∧
    (formSettingsRounded fl c w effectId t0 t1 isSelection settings).1.t1 = t1 ∧
    (formSettingsRounded fl c w effectId t0 t1 isSelection settings).2.extra.duration =
      t1 - t0 := by
  obtain ⟨g1, g2, g3⟩ :=
    formSettingsRounded_of_selection fl c w effectId t0 t1 isSelection settings hSel
  have hne : w.projectRate ≠ 0 := ne_of_gt hRate
  have q0 : QUANTIZED_TIME_rounded fl t0 w.projectRate = t0 := by
    unfold QUANTIZED_TIME_rounded quantizedSample
    have hm : t0 * w.projectRate = (a : ℚ) := by
      rw [h0]
      field_simp
    have hq : (a : ℚ) / w.projectRate = t0 := by
      rw [h0]
      field_simp
    rw [hp0, hm, round_intCast, hq, hd0]
  have q1 : QUANTIZED_TIME_rounded fl t1 w.projectRate = t1 := by
    unfold QUANTIZED_TIME_rounded quantizedSample
    have hm : t1 * w.projectRate = (b : ℚ) := by
      rw [h1]
      field_simp
    have hq : (b : ℚ) / w.projectRate = t1 := by
      rw [h1]
      field_simp
    rw [hp1, hm, round_intCast, hq, hd1]
  have hsum : t0 + (t1 - t0) = t1 := by ring
  rw [g1, g2, g3, q0, q1, hd, hsum, hd1]
  exact ⟨rfl, rfl, rfl⟩

/-- Witness of C9 amended: in IEEE double arithmetic the selection from 2 s to 5 s at
44100 Hz keeps its ends and gets the duration 3 s. -/
theorem formSettingsRounded_aligned_witness :
    ((2 : ℚ) < 5 ∧ 0 < (rateWorld 44100 2 5).projectRate ∧
      (2 : ℚ) = ((88200 : ℤ) : ℚ) * (1 / (rateWorld 44100 2 5).projectRate) ∧
      (5 : ℚ) = ((220500 : ℤ) : ℚ) * (1 / (rateWorld 44100 2 5).projectRate) ∧
      roundToDouble (2 * (rateWorld 44100 2 5).projectRate) =
        2 * (rateWorld 44100 2 5).projectRate ∧
      roundToDouble (5 * (rateWorld 44100 2 5).projectRate) =
        5 * (rateWorld 44100 2 5).projectRate ∧
      roundToDouble 2 = 2 ∧ roundToDouble 5 = 5 ∧ roundToDouble (5 - 2) = 5 - 2) ∧
    (formSettingsRounded roundToDouble (sampleCollab Ret.ok) (rateWorld 44100 2 5) "amplify"
      2 5 true idleSettings).1.t0 = 2 ∧
    (formSettingsRounded roundToDouble (sampleCollab Ret.ok) (rateWorld 44100 2 5) "amplify"
      2 5 true idleSettings).1.t1 = 5 ∧
    (formSettingsRounded roundToDouble (sampleCollab Ret.ok) (rateWorld 44100 2 5) "amplify"
      2 5 true idleSettings).2.extra.duration = 5 - 2 :=
  ⟨⟨by decide!, by decide!, by decide!, by decide!, by decide!, by decide!, by decide!,
      by decide!, by decide!⟩,
    formSettingsRounded_aligned roundToDouble (sampleCollab Ret.ok) (rateWorld 44100 2 5)
      "amplify" 2 5 true idleSettings 88200 220500 (by decide!) (by decide!) (by decide!)
      (by decide!) (by decide!) (by decide!) (by decide!) (by decide!) (by decide!)⟩

end EffectExecutionScenario
